import Mathlib

/-! QingCloud volume provisioner: attach / detach reconciliation.

A shallow embedding of `pkg/volume/qingcloud/volume_manager.go` and
`pkg/volume/qingcloud_volume/attacher.go`.

* Go code runs in the monad `Go σ`: explicit state passing over the state `σ` of
  the world outside the process (the cloud), returning either a value or a
  runtime fault (nil dereference, index out of range).
* A Go `error` is `Option Error` (`none` is `nil`); a Go result tuple
  `(v, err)` is a pair.
* A Go pointer field (`*string`, `*Instance`) is an `Option`.
* The cloud SDK is the record `Cloud σ`; `Cloud.traced` adds a ghost log of every
  request with its response, so that statements can count the calls made.
-/

namespace QingCloud

/-! ## Go runtime -/

/-- Go `error` value; only `err.Error()` is observed. -/
structure Error where
  msg : String
deriving DecidableEq, Repr

/-- Runtime faults of the Go code modelled here. -/
inductive Fault where
  | nilDereference
  | indexOutOfRange
deriving DecidableEq, Repr

/-- How a Go call ends: it returns a value, or the goroutine faults. -/
inductive Outcome (α : Type) where
  | ret (a : α)
  | fault (f : Fault)
deriving DecidableEq, Repr

/-- Go computation over an external state `σ`. The state is kept when the code faults. -/
def Go (σ α : Type) : Type := σ → Outcome α × σ

instance (σ : Type) : Monad (Go σ) where
  pure a := fun s => (Outcome.ret a, s)
  bind m f := fun s =>
    match m s with
    | (Outcome.ret a, s1) => f a s1
    | (Outcome.fault e, s1) => (Outcome.fault e, s1)

/-- A call into an external collaborator: it always returns. -/
def Go.call {σ α : Type} (f : σ → α × σ) : Go σ α :=
  fun s => (Outcome.ret (f s).1, (f s).2)

/-- Raise a runtime fault. -/
def Go.raise {σ α : Type} (e : Fault) : Go σ α :=
  fun s => (Outcome.fault e, s)

/-- Pointer dereference `*p`. -/
def Go.deref {σ α : Type} : Option α → Go σ α
  | some a => pure a
  | none => Go.raise Fault.nilDereference

/-- Slice indexing `xs[i]`. -/
def Go.index {σ α : Type} (xs : List α) (i : Nat) : Go σ α :=
  match xs.get? i with
  | some a => pure a
  | none => Go.raise Fault.indexOutOfRange

/-! ## Go standard library: `strings`, `path` -/

/-- Search loop of `strings.Index`: offset of the first occurrence of `sub` in `s`,
counted from `i`, or `-1`. -/
def stringsIndexFrom (sub : List Char) : List Char → Nat → Int
  | [], i => if sub.isEmpty then (i : Int) else -1
  | c :: cs, i => if sub.isPrefixOf (c :: cs) then (i : Int) else stringsIndexFrom sub cs (i + 1)

/-- Go `strings.Index(s, substr)`. -/
def stringsIndex (s substr : String) : Int :=
  stringsIndexFrom substr.toList s.toList 0

/-- Go `strings.Contains(s, substr)`, which is `strings.Index(s, substr) >= 0`. -/
def stringsContains (s substr : String) : Bool :=
  decide (stringsIndex s substr ≥ 0)

/-- Go `path.Base`: the last element of `path`; trailing slashes are removed first;
`"."` for the empty path and `"/"` for a path of slashes only. -/
def pathBase (path : String) : String :=
  if path = "" then "."
  else
    -- `for len(path) > 0 && path[len(path)-1] == '/' { path = path[0 : len(path)-1] }`
    let stripped := (path.toList.reverse.dropWhile (fun c => c == '/')).reverse
    -- `if i := strings.LastIndex(path, "/"); i >= 0 { path = path[i+1:] }`
    let last := (stripped.reverse.takeWhile (fun c => c != '/')).reverse
    if last = [] then "/" else String.mk last

/-! ## Go maps -/

/-- Go `map[κ]υ` as an association list without repeated keys. The `nil` map reads as the empty one. -/
def GoMap (κ υ : Type) : Type := List (κ × υ)

namespace GoMap

variable {κ υ : Type} [DecidableEq κ]

/-- The value of `make(map[κ]υ)`. -/
def empty : GoMap κ υ := []

/-- Lookup `m[k]` with the comma-ok result. -/
def get? : GoMap κ υ → κ → Option υ
  | [], _ => none
  | (k1, v1) :: rest, k => if k1 = k then some v1 else get? rest k

/-- Assignment `m[k] = v`. -/
def set : GoMap κ υ → κ → υ → GoMap κ υ
  | [], k, v => [(k, v)]
  | (k1, v1) :: rest, k, v => if k1 = k then (k1, v) :: rest else (k1, v1) :: set rest k v

/-- The keys of the map. -/
def keys (m : GoMap κ υ) : List κ := m.map Prod.fst

/-- The entries of the map, as `range` visits them. -/
def entries (m : GoMap κ υ) : List (κ × υ) := m

end GoMap

/-! ## The cloud SDK (`qingcloud-sdk-go`): requests, responses, services -/

/-- Attachment record of a volume, `qcservice.Instance` (the fields read by the code). -/
structure Instance where
  InstanceID : Option String
  Device : Option String
deriving DecidableEq, Repr

/-- Volume of a describe response, `qcservice.Volume` (the fields read by the code). -/
structure Volume where
  VolumeID : Option String
  Instance : Option Instance
deriving DecidableEq, Repr

structure DescribeVolumesInput where
  Volumes : List String
deriving DecidableEq, Repr

/-- The elements of `VolumeSet` are taken to be non-nil pointers. -/
structure DescribeVolumesOutput where
  VolumeSet : List Volume
deriving DecidableEq, Repr

structure AttachVolumesInput where
  Volumes : List String
  Instance : String
deriving DecidableEq, Repr

structure AttachVolumesOutput where
  JobID : Option String
deriving DecidableEq, Repr

structure DetachVolumesInput where
  Volumes : List String
  Instance : String
deriving DecidableEq, Repr

structure DetachVolumesOutput where
  JobID : Option String
deriving DecidableEq, Repr

structure CreateVolumesInput where
  VolumeName : String
  Size : Int
  VolumeType : Int
deriving DecidableEq, Repr

structure CreateVolumesOutput where
  JobID : Option String
  Volumes : List (Option String)
deriving DecidableEq, Repr

structure DeleteVolumesInput where
  Volumes : List String
deriving DecidableEq, Repr

structure DeleteVolumesOutput where
  JobID : Option String
deriving DecidableEq, Repr

/-- Response of an SDK call, the Go pair `(output, err)`: an error or an output. -/
inductive Reply (α : Type) where
  | ok (output : α)
  | error (err : Error)
deriving DecidableEq, Repr

/-- The cloud as the code sees it: the volume service and `qcclient.WaitJob` on the job
service, each a transition of the cloud state `σ`. `WaitJob jobID timeout interval`
returns `nil` when the job succeeded and an error when it failed or timed out. -/
structure Cloud (σ : Type) where
  DescribeVolumes : DescribeVolumesInput → σ → Reply DescribeVolumesOutput × σ
  AttachVolumes : AttachVolumesInput → σ → Reply AttachVolumesOutput × σ
  DetachVolumes : DetachVolumesInput → σ → Reply DetachVolumesOutput × σ
  CreateVolumes : CreateVolumesInput → σ → Reply CreateVolumesOutput × σ
  DeleteVolumes : DeleteVolumesInput → σ → Reply DeleteVolumesOutput × σ
  WaitJob : String → Nat → Nat → σ → Option Error × σ

/-- One request to the cloud together with its response. -/
inductive Call where
  | describeVolumes (input : DescribeVolumesInput) (reply : Reply DescribeVolumesOutput)
  | attachVolumes (input : AttachVolumesInput) (reply : Reply AttachVolumesOutput)
  | detachVolumes (input : DetachVolumesInput) (reply : Reply DetachVolumesOutput)
  | createVolumes (input : CreateVolumesInput) (reply : Reply CreateVolumesOutput)
  | deleteVolumes (input : DeleteVolumesInput) (reply : Reply DeleteVolumesOutput)
  | waitJob (jobID : String) (timeout interval : Nat) (err : Option Error)
deriving DecidableEq, Repr

/-- The same cloud with a ghost log: every request is appended, with its response, to the
list carried next to the cloud state. -/
def Cloud.traced {σ : Type} (c : Cloud σ) : Cloud (σ × List Call) where
  DescribeVolumes input := fun st =>
    ((c.DescribeVolumes input st.1).1,
      ((c.DescribeVolumes input st.1).2, st.2 ++ [Call.describeVolumes input (c.DescribeVolumes input st.1).1]))
  AttachVolumes input := fun st =>
    ((c.AttachVolumes input st.1).1,
      ((c.AttachVolumes input st.1).2, st.2 ++ [Call.attachVolumes input (c.AttachVolumes input st.1).1]))
  DetachVolumes input := fun st =>
    ((c.DetachVolumes input st.1).1,
      ((c.DetachVolumes input st.1).2, st.2 ++ [Call.detachVolumes input (c.DetachVolumes input st.1).1]))
  CreateVolumes input := fun st =>
    ((c.CreateVolumes input st.1).1,
      ((c.CreateVolumes input st.1).2, st.2 ++ [Call.createVolumes input (c.CreateVolumes input st.1).1]))
  DeleteVolumes input := fun st =>
    ((c.DeleteVolumes input st.1).1,
      ((c.DeleteVolumes input st.1).2, st.2 ++ [Call.deleteVolumes input (c.DeleteVolumes input st.1).1]))
  WaitJob jobID timeout interval := fun st =>
    ((c.WaitJob jobID timeout interval st.1).1,
      ((c.WaitJob jobID timeout interval st.1).2,
        st.2 ++ [Call.waitJob jobID timeout interval (c.WaitJob jobID timeout interval st.1).1]))

/-! ## `pkg/volume/qingcloud/volume_manager.go` -/

/-- Go `type VolumeType int`. -/
abbrev VolumeType : Type := Int

def VolumeTypeHP : VolumeType := 0
def VolumeTypeHC : VolumeType := 2
def VolumeTypeSHP : VolumeType := 3
def DefaultVolumeType : VolumeType := VolumeTypeHP
def DefaultMaxQingCloudVolumes : Nat := 10

structure VolumeOptions where
  CapacityGB : Int
  VolumeType : VolumeType
  VolumeName : String
deriving DecidableEq, Repr

/-- The receiver `volumeManager`. `volumeService` and `jobService` are the two services of
`cloud`. The package constants `operationWaitTimeout` and `waitInterval` are declared
outside this file and are carried here as fields. -/
structure volumeManager (σ : Type) where
  cloud : Cloud σ
  zone : String
  defaultVolumeType : VolumeType
  operationWaitTimeout : Nat
  waitInterval : Nat

namespace volumeManager

variable {σ : Type}

/-- `volumeManager.VolumeIsAttached`. -/
def VolumeIsAttached (vm : volumeManager σ) (volumeID instanceID : String) :
    Go σ (Bool × Option Error) := do
  let reply ← Go.call (vm.cloud.DescribeVolumes { Volumes := [volumeID] })
  match reply with
  | Reply.error err => return (false, some err)
  | Reply.ok output =>
    if output.VolumeSet.length = 0 then
      return (false, none)
    let volume ← Go.index output.VolumeSet 0
    let inst ← Go.deref volume.Instance
    let id ← Go.deref inst.InstanceID
    return (decide (id = instanceID), none)

/-- `volumeManager.AttachVolume`. -/
def AttachVolume (vm : volumeManager σ) (volumeID instanceID : String) :
    Go σ (String × Option Error) := do
  let (attached, err) ← vm.VolumeIsAttached volumeID instanceID
  if err ≠ none then
    return ("", err)
  if !attached then
    let reply ← Go.call (vm.cloud.AttachVolumes { Volumes := [volumeID], Instance := instanceID })
    match reply with
    | Reply.error err => return ("", some err)
    | Reply.ok output =>
      let jobID ← Go.deref output.JobID
      let err ← Go.call (vm.cloud.WaitJob jobID vm.operationWaitTimeout vm.waitInterval)
      if err ≠ none then
        return ("", err)
  let reply ← Go.call (vm.cloud.DescribeVolumes { Volumes := [volumeID] })
  match reply with
  | Reply.error err => return ("", some err)
  | Reply.ok output =>
    if output.VolumeSet.length = 0 then
      return ("", some ⟨"volume \x27" ++ volumeID ++ "\x27 miss after attach it"⟩)
    let volume ← Go.index output.VolumeSet 0
    let inst ← Go.deref volume.Instance
    let dev := inst.Device
    if dev = none ∨ dev = some "" then
      return ("", some ⟨"the device of volume \x27" ++ volumeID ++ "\x27 is empty"⟩)
    let d ← Go.deref dev
    return (d, none)

/-- `volumeManager.DetachVolume`. -/
def DetachVolume (vm : volumeManager σ) (volumeID instanceID : String) : Go σ (Option Error) := do
  let reply ← Go.call (vm.cloud.DetachVolumes { Volumes := [volumeID], Instance := instanceID })
  match reply with
  | Reply.error err => return some err
  | Reply.ok output =>
    let jobID ← Go.deref output.JobID
    let err ← Go.call (vm.cloud.WaitJob jobID vm.operationWaitTimeout vm.waitInterval)
    return err

/-- `volumeManager.CreateVolume`. The error of `WaitJob` is dropped. -/
def CreateVolume (vm : volumeManager σ) (volumeOptions : VolumeOptions) :
    Go σ (String × Option Error) := do
  let reply ← Go.call (vm.cloud.CreateVolumes
    { VolumeName := volumeOptions.VolumeName,
      Size := volumeOptions.CapacityGB,
      VolumeType := volumeOptions.VolumeType })
  match reply with
  | Reply.error err => return ("", some err)
  | Reply.ok output =>
    let jobID ← Go.deref output.JobID
    let _ ← Go.call (vm.cloud.WaitJob jobID vm.operationWaitTimeout vm.waitInterval)
    let first ← Go.index output.Volumes 0
    let volumeID ← Go.deref first
    return (volumeID, none)

/-- `volumeManager.DeleteVolume`. The error of `WaitJob` is dropped. -/
def DeleteVolume (vm : volumeManager σ) (volumeID : String) : Go σ (Bool × Option Error) := do
  let reply ← Go.call (vm.cloud.DeleteVolumes { Volumes := [volumeID] })
  match reply with
  | Reply.error err =>
    if stringsIndex err.msg "already been deleted" ≥ 0 then
      return (false, none)
    return (false, some err)
  | Reply.ok output =>
    let jobID ← Go.deref output.JobID
    let _ ← Go.call (vm.cloud.WaitJob jobID vm.operationWaitTimeout vm.waitInterval)
    return (true, none)

/-- First loop of `DisksAreAttached`: `for _, volumeID := range volumeIDs { attached[volumeID] = false }`. -/
def initAttached : List String → GoMap String Bool → GoMap String Bool
  | [], attached => attached
  | volumeID :: rest, attached => initAttached rest (attached.set volumeID false)

/-- Second loop of `DisksAreAttached`: `for _, volume := range output.VolumeSet { ... }`. -/
def markAttached (instanceID : String) : List Volume → GoMap String Bool → Go σ (GoMap String Bool)
  | [], attached => pure attached
  | volume :: rest, attached => do
    let inst ← Go.deref volume.Instance
    let id ← Go.deref inst.InstanceID
    if id = instanceID then
      let volumeID ← Go.deref volume.VolumeID
      markAttached instanceID rest (attached.set volumeID true)
    else
      markAttached instanceID rest attached

/-- `volumeManager.DisksAreAttached`. The `nil` map of the error return is the empty map. -/
def DisksAreAttached (vm : volumeManager σ) (volumeIDs : List String) (instanceID : String) :
    Go σ (GoMap String Bool × Option Error) := do
  let attached := initAttached volumeIDs GoMap.empty
  let reply ← Go.call (vm.cloud.DescribeVolumes { Volumes := volumeIDs })
  match reply with
  | Reply.error err => return (GoMap.empty, some err)
  | Reply.ok output =>
    let attached ← markAttached instanceID output.VolumeSet attached
    return (attached, none)

/-- `volumeManager.GetDefaultVolumeType`. -/
def GetDefaultVolumeType (vm : volumeManager σ) : VolumeType :=
  vm.defaultVolumeType

end volumeManager

/-- The interface `VolumeManager` of `volume_manager.go`, which `attacher.go` uses under the
name `qingcloud.Volumes`. -/
structure Volumes (σ : Type) where
  AttachVolume : String → String → Go σ (String × Option Error)
  DetachVolume : String → String → Go σ (Option Error)
  CreateVolume : VolumeOptions → Go σ (String × Option Error)
  DeleteVolume : String → Go σ (Bool × Option Error)
  VolumeIsAttached : String → String → Go σ (Bool × Option Error)
  DisksAreAttached : List String → String → Go σ (GoMap String Bool × Option Error)
  GetDefaultVolumeType : VolumeType

/-- The type `volumeManager` implements the interface. -/
def volumeManager.toVolumes {σ : Type} (vm : volumeManager σ) : Volumes σ where
  AttachVolume := vm.AttachVolume
  DetachVolume := vm.DetachVolume
  CreateVolume := vm.CreateVolume
  DeleteVolume := vm.DeleteVolume
  VolumeIsAttached := vm.VolumeIsAttached
  DisksAreAttached := vm.DisksAreAttached
  GetDefaultVolumeType := vm.GetDefaultVolumeType

/-- One call of a method of the interface `Volumes`, with its arguments. -/
inductive MethodCall where
  | AttachVolume (volumeID instanceID : String)
  | DetachVolume (volumeID instanceID : String)
  | CreateVolume (volumeOptions : VolumeOptions)
  | DeleteVolume (volumeID : String)
  | VolumeIsAttached (volumeID instanceID : String)
  | DisksAreAttached (volumeIDs : List String) (instanceID : String)
deriving DecidableEq, Repr

/-- Run `m` on the first component of the state and append `c` to the ghost log in the second. -/
def Go.logged {σ α : Type} (c : MethodCall) (m : Go σ α) : Go (σ × List MethodCall) α :=
  fun st => ((m st.1).1, ((m st.1).2, st.2 ++ [c]))

/-- The same `Volumes` with a ghost log of the method calls made on it. -/
def Volumes.traced {σ : Type} (v : Volumes σ) : Volumes (σ × List MethodCall) where
  AttachVolume volumeID instanceID :=
    Go.logged (MethodCall.AttachVolume volumeID instanceID) (v.AttachVolume volumeID instanceID)
  DetachVolume volumeID instanceID :=
    Go.logged (MethodCall.DetachVolume volumeID instanceID) (v.DetachVolume volumeID instanceID)
  CreateVolume volumeOptions :=
    Go.logged (MethodCall.CreateVolume volumeOptions) (v.CreateVolume volumeOptions)
  DeleteVolume volumeID :=
    Go.logged (MethodCall.DeleteVolume volumeID) (v.DeleteVolume volumeID)
  VolumeIsAttached volumeID instanceID :=
    Go.logged (MethodCall.VolumeIsAttached volumeID instanceID) (v.VolumeIsAttached volumeID instanceID)
  DisksAreAttached volumeIDs instanceID :=
    Go.logged (MethodCall.DisksAreAttached volumeIDs instanceID) (v.DisksAreAttached volumeIDs instanceID)
  GetDefaultVolumeType := v.GetDefaultVolumeType

/-! ## `pkg/volume/qingcloud_volume/attacher.go` -/

/-- The volume source of a spec (`qingcloudVolumeSource`): the fields read by the code. -/
structure qingcloudVolumeSource where
  VolumeID : String
  FSType : String
deriving DecidableEq, Repr

/-- Declarations that `attacher.go` uses and that live in other files of the repository.
`Spec` stands for a non-nil `*volume.Spec`; equality on it is pointer equality.
* `getVolumeSource spec` is `(source, readOnly, err)`: `Reply.ok (source, readOnly)` when
  `err == nil`, with a non-nil source.
* `NodeNameToInstanceID` maps a node name to an instance ID.
* `specName` is `spec.Name()`, read only for log lines. -/
structure Helpers (Spec : Type) where
  getVolumeSource : Spec → Reply (qingcloudVolumeSource × Bool)
  NodeNameToInstanceID : String → String
  specName : Spec → String

/-- The receiver `qingcloudVolumeAttacher`; of `host` the code modelled here uses nothing. -/
structure qingcloudVolumeAttacher (σ : Type) where
  qcVolumes : Volumes σ

/-- The receiver `qingcloudVolumeDetacher`; the mounter is used by `UnmountDevice` only. -/
structure qingcloudVolumeDetacher (σ : Type) where
  qingVolumes : Volumes σ

section attacher

variable {σ Spec : Type} [DecidableEq Spec]

/-- `spec.Name()` on a pointer that may be nil: the method reads `spec.Volume`. -/
def specNameOf (h : Helpers Spec) (spec : Option Spec) : Go σ String := do
  let sp ← Go.deref spec
  return h.specName sp

/-- `qingcloudVolumeAttacher.Attach`. -/
def qingcloudVolumeAttacher.Attach (attacher : qingcloudVolumeAttacher σ) (h : Helpers Spec)
    (spec : Spec) (nodeName : String) : Go σ (String × Option Error) := do
  match h.getVolumeSource spec with
  | Reply.error err => return ("", some err)
  | Reply.ok (volumeSource, _) =>
    let volumeID := volumeSource.VolumeID
    let (devicePath, err) ←
      attacher.qcVolumes.AttachVolume volumeID (h.NodeNameToInstanceID nodeName)
    match err with
    | some e =>
      if !stringsContains e.msg "have been already attached to instance" then
        return ("", some e)
    | none => pure ()
    return (devicePath, none)

/-- State of the first loop of `VolumesAreAttached`. -/
structure SpecTables (Spec : Type) where
  volumesAttachedCheck : GoMap (Option Spec) Bool
  volumeSpecMap : GoMap String Spec
  volumeIDList : List String

/-- The three locals as declared: two empty maps and `[]string{}`. -/
def SpecTables.empty : SpecTables Spec :=
  { volumesAttachedCheck := GoMap.empty, volumeSpecMap := GoMap.empty, volumeIDList := [] }

/-- First loop of `VolumesAreAttached`: `for _, spec := range specs { ... }`. -/
def collectSpecs (h : Helpers Spec) : List Spec → SpecTables Spec → SpecTables Spec
  | [], t => t
  | spec :: rest, t =>
    match h.getVolumeSource spec with
    | Reply.error _ => collectSpecs h rest t
    | Reply.ok (volumeSource, _) =>
      let name := volumeSource.VolumeID
      collectSpecs h rest
        { volumeIDList := t.volumeIDList ++ [name],
          volumesAttachedCheck := t.volumesAttachedCheck.set (some spec) true,
          volumeSpecMap := t.volumeSpecMap.set name spec }

/-- Second loop of `VolumesAreAttached`: `for volumeID, attached := range attachedResult { ... }`.
The entries are visited in the order of the association list; every write stores `false`,
so the resulting map is the same for every order. `volumeSpecMap[volumeID]` is nil for a
key that is missing, and the log line then calls `Name()` on the nil spec. -/
def clearDetached (h : Helpers Spec) (volumeSpecMap : GoMap String Spec) :
    List (String × Bool) → GoMap (Option Spec) Bool → Go σ (GoMap (Option Spec) Bool)
  | [], check => pure check
  | (volumeID, attached) :: rest, check => do
    if !attached then
      let spec := volumeSpecMap.get? volumeID
      let check := check.set spec false
      let _ ← specNameOf h spec
      clearDetached h volumeSpecMap rest check
    else
      clearDetached h volumeSpecMap rest check

/-- `qingcloudVolumeAttacher.VolumesAreAttached`. -/
def qingcloudVolumeAttacher.VolumesAreAttached (attacher : qingcloudVolumeAttacher σ)
    (h : Helpers Spec) (specs : List Spec) (nodeName : String) :
    Go σ (GoMap (Option Spec) Bool × Option Error) := do
  let t := collectSpecs h specs SpecTables.empty
  let (attachedResult, err) ←
    attacher.qcVolumes.DisksAreAttached t.volumeIDList (h.NodeNameToInstanceID nodeName)
  if err ≠ none then
    return (t.volumesAttachedCheck, err)
  let check ← clearDetached h t.volumeSpecMap attachedResult t.volumesAttachedCheck
  return (check, none)

/-- `qingcloudVolumeDetacher.Detach`. -/
def qingcloudVolumeDetacher.Detach (detacher : qingcloudVolumeDetacher σ) (h : Helpers Spec)
    (deviceMountPath : String) (nodeName : String) : Go σ (Option Error) := do
  let volumeID := pathBase deviceMountPath
  let (attached, err) ←
    detacher.qingVolumes.VolumeIsAttached volumeID (h.NodeNameToInstanceID nodeName)
  if err = none ∧ !attached then
    return none
  let err ← detacher.qingVolumes.DetachVolume volumeID (h.NodeNameToInstanceID nodeName)
  if err ≠ none then
    return err
  return none

end attacher

/-! ## Running against a logging cloud -/

/-- The manager `vm` running against the logging cloud `vm.cloud.traced`. -/
def volumeManager.traced {σ : Type} (vm : volumeManager σ) : volumeManager (σ × List Call) :=
  { vm with cloud := vm.cloud.traced }

/-- The last stage of `AttachVolume`, lines 143 to 158 (the describe that reads the device), as
a function of its own. `AttachVolume` runs it inline; see `AttachVolume_of_attached` and
`AttachVolume_of_waited`. -/
def volumeManager.describeDevice {σ : Type} (vm : volumeManager σ) (volumeID : String) :
    Go σ (String × Option Error) := do
  let reply ← Go.call (vm.cloud.DescribeVolumes { Volumes := [volumeID] })
  match reply with
  | Reply.error err => return ("", some err)
  | Reply.ok output =>
    if output.VolumeSet.length = 0 then
      return ("", some ⟨"volume \x27" ++ volumeID ++ "\x27 miss after attach it"⟩)
    let volume ← Go.index output.VolumeSet 0
    let inst ← Go.deref volume.Instance
    let dev := inst.Device
    if dev = none ∨ dev = some "" then
      return ("", some ⟨"the device of volume \x27" ++ volumeID ++ "\x27 is empty"⟩)
    let d ← Go.deref dev
    return (d, none)

/-- Number of describe requests in a log. -/
def countDescribe (log : List Call) : Nat :=
  (log.filter (fun c => match c with
    | Call.describeVolumes _ _ => true
    | _ => false)).length

/-- A describe response reports its first volume bound to `instanceID` with device `d`. -/
def ReportsBound (output : DescribeVolumesOutput) (instanceID d : String) : Prop :=
  ∃ v rest inst, output.VolumeSet = v :: rest ∧ v.Instance = some inst ∧
    inst.InstanceID = some instanceID ∧ inst.Device = some d

/-- The volume is attached to `instanceID` according to its attachment record. -/
def Volume.boundTo (v : Volume) (instanceID : String) : Bool :=
  match v.Instance with
  | some inst => decide (inst.InstanceID = some instanceID)
  | none => false

/-- The volume carries an ID, an attachment record and, in it, an instance ID. -/
def Volume.complete (v : Volume) : Bool :=
  v.VolumeID.isSome && (match v.Instance with
    | some inst => inst.InstanceID.isSome
    | none => false)

/-- The response lists a volume with the ID `id` that is attached to `instanceID`. -/
def listsAttached (output : DescribeVolumesOutput) (instanceID id : String) : Bool :=
  output.VolumeSet.any (fun v => decide (v.VolumeID = some id) && v.boundTo instanceID)

/-- The detacher running against the logging `Volumes`. -/
def qingcloudVolumeDetacher.traced {σ : Type} (detacher : qingcloudVolumeDetacher σ) :
    qingcloudVolumeDetacher (σ × List MethodCall) :=
  { qingVolumes := detacher.qingVolumes.traced }

/-- The attacher running against the logging `Volumes`. -/
def qingcloudVolumeAttacher.traced {σ : Type} (attacher : qingcloudVolumeAttacher σ) :
    qingcloudVolumeAttacher (σ × List MethodCall) :=
  { qcVolumes := attacher.qcVolumes.traced }

/-- The spec resolves to a volume source. -/
def resolves {Spec : Type} (h : Helpers Spec) (spec : Spec) : Bool :=
  match h.getVolumeSource spec with
  | Reply.ok _ => true
  | Reply.error _ => false

/-- The volume IDs of the specs that resolve to a volume source, in the order of the specs. -/
def volumeIDsOf {Spec : Type} (h : Helpers Spec) (specs : List Spec) : List String :=
  specs.filterMap (fun spec =>
    match h.getVolumeSource spec with
    | Reply.ok (volumeSource, _) => some volumeSource.VolumeID
    | Reply.error _ => none)

/-! ## Test doubles

A small in-memory cloud and a stub of the interface `Volumes`, used to run the code on
concrete scenarios. -/

/-- Fixed replies of the in-memory cloud to the mutating requests and to the job wait. -/
structure FakeReplies where
  attach : Reply AttachVolumesOutput
  detach : Reply DetachVolumesOutput
  create : Reply CreateVolumesOutput
  delete : Reply DeleteVolumesOutput
  wait : Option Error

/-- Every mutating request is accepted as job `j-1`, and the job succeeds. -/
def allSucceed : FakeReplies where
  attach := Reply.ok { JobID := some "j-1" }
  detach := Reply.ok { JobID := some "j-1" }
  create := Reply.ok { JobID := some "j-1", Volumes := [some "vol-1"] }
  delete := Reply.ok { JobID := some "j-1" }
  wait := none

/-- What describe-volumes answers for the filter `ids` on the volume table `table`:
the volumes whose ID is listed, and the whole table for the empty filter. -/
def describeTable (ids : List String) (table : List Volume) : List Volume :=
  if ids = [] then table
  else table.filter (fun v => match v.VolumeID with
    | some id => decide (id ∈ ids)
    | none => false)

/-- In-memory cloud. Its state is a list of volume tables: the head is the current table,
read by describe; every mutating request moves on to the next table. -/
def fakeCloud (r : FakeReplies) : Cloud (List (List Volume)) where
  DescribeVolumes input := fun st => (Reply.ok { VolumeSet := describeTable input.Volumes st.headI }, st)
  AttachVolumes _ := fun st => (r.attach, st.tail)
  DetachVolumes _ := fun st => (r.detach, st.tail)
  CreateVolumes _ := fun st => (r.create, st.tail)
  DeleteVolumes _ := fun st => (r.delete, st.tail)
  WaitJob _ _ _ := fun st => (r.wait, st)

/-- Volume manager on the in-memory cloud. -/
def fakeManager (r : FakeReplies) : volumeManager (List (List Volume)) where
  cloud := fakeCloud r
  zone := "pek3a"
  defaultVolumeType := DefaultVolumeType
  operationWaitTimeout := 180
  waitInterval := 10

/-- Table entry: volume `id` attached to `instanceID` as device `dev`. -/
def boundVolume (id instanceID dev : String) : Volume :=
  { VolumeID := some id, Instance := some { InstanceID := some instanceID, Device := some dev } }

/-- Table entry: volume `id` attached to nothing; the cloud reports empty strings. -/
def freeVolume (id : String) : Volume :=
  { VolumeID := some id, Instance := some { InstanceID := some "", Device := some "" } }

/-- Stub of the interface `Volumes` with fixed results; it has no state. -/
def stubVolumes (attach : String × Option Error) (detach : Option Error)
    (isAttached : Bool × Option Error) (disks : GoMap String Bool × Option Error) : Volumes Unit where
  AttachVolume _ _ := pure attach
  DetachVolume _ _ := pure detach
  CreateVolume _ := pure ("", none)
  DeleteVolume _ := pure (false, none)
  VolumeIsAttached _ _ := pure isAttached
  DisksAreAttached _ _ := pure disks
  GetDefaultVolumeType := DefaultVolumeType

/-- Helpers for specs that are plain volume IDs: the spec `""` has no volume source, the
node name is the instance ID. -/
def stringHelpers : Helpers String where
  getVolumeSource spec :=
    if spec = "" then Reply.error ⟨"Spec does not reference a qingcloud volume type"⟩
    else Reply.ok ({ VolumeID := spec, FSType := "ext4" }, false)
  NodeNameToInstanceID nodeName := nodeName
  specName spec := spec

/-- Helpers for specs that are pairs of an address and a volume ID: two specs at different
addresses are distinct specs, also when they carry the same volume ID. -/
def pairHelpers : Helpers (Nat × String) where
  getVolumeSource spec :=
    if spec.2 = "" then Reply.error ⟨"Spec does not reference a qingcloud volume type"⟩
    else Reply.ok ({ VolumeID := spec.2, FSType := "ext4" }, false)
  NodeNameToInstanceID nodeName := nodeName
  specName spec := spec.2

/-- Table entry: volume `id` without an attachment record. -/
def bareVolume (id : String) : Volume :=
  { VolumeID := some id, Instance := none }

/-- Table entry: volume `id` whose attachment record has no instance ID. -/
def blankVolume (id : String) : Volume :=
  { VolumeID := some id, Instance := some { InstanceID := none, Device := none } }

/-- Log of `AttachVolume("vol-1", "i-1")` on the in-memory cloud when `vol-1` starts out free
and the attach request binds it to `i-1` as `/dev/sdb`. -/
def attachLog : List Call :=
  [Call.describeVolumes { Volumes := ["vol-1"] } (Reply.ok { VolumeSet := [freeVolume "vol-1"] }),
   Call.attachVolumes { Volumes := ["vol-1"], Instance := "i-1" } (Reply.ok { JobID := some "j-1" }),
   Call.waitJob "j-1" 180 10 none,
   Call.describeVolumes { Volumes := ["vol-1"] }
     (Reply.ok { VolumeSet := [boundVolume "vol-1" "i-1" "/dev/sdb"] })]

/-- Log of `AttachVolume("vol-1", "i-1")` on the in-memory cloud when `vol-1` is and stays
attached to `i-2` as `/dev/sdc`, although the attach job is reported as done. -/
def foreignLog : List Call :=
  [Call.describeVolumes { Volumes := ["vol-1"] }
     (Reply.ok { VolumeSet := [boundVolume "vol-1" "i-2" "/dev/sdc"] }),
   Call.attachVolumes { Volumes := ["vol-1"], Instance := "i-1" } (Reply.ok { JobID := some "j-1" }),
   Call.waitJob "j-1" 180 10 none,
   Call.describeVolumes { Volumes := ["vol-1"] }
     (Reply.ok { VolumeSet := [boundVolume "vol-1" "i-2" "/dev/sdc"] })]

/-! # Theorems -/

/-! ## `strings.Index` finds exactly the infixes -/

theorem stringsIndexFrom_nonneg_iff (sub : List Char) (l : List Char) (i : Nat) :
    0 ≤ stringsIndexFrom sub l i ↔ sub <:+: l := by
  induction l generalizing i with
  | nil =>
    cases sub <;> simp [stringsIndexFrom]
  | cons c cs ih =>
    unfold stringsIndexFrom
    by_cases hp : sub.isPrefixOf (c :: cs) = true
    · simp only [hp, if_true]
      have : sub <+: c :: cs := List.isPrefixOf_iff_prefix.mp hp
      simp [this.isInfix]
    · simp only [hp]
      have hnp : ¬ sub <+: c :: cs := fun h => hp (List.isPrefixOf_iff_prefix.mpr h)
      rw [if_neg (by simp), ih, List.infix_cons_iff]
      simp [hnp]

theorem stringsIndex_nonneg_iff (s substr : String) :
    0 ≤ stringsIndex s substr ↔ substr.toList <:+: s.toList :=
  stringsIndexFrom_nonneg_iff substr.toList s.toList 0

theorem stringsContains_iff (s substr : String) :
    stringsContains s substr = true ↔ substr.toList <:+: s.toList := by
  simp [stringsContains, stringsIndex_nonneg_iff]

/-! ## `path.Base` -/

theorem takeWhile_append_stop {α : Type} (p : α → Bool) (l r : List α) (a : α)
    (hl : ∀ x ∈ l, p x = true) (ha : p a = false) : (l ++ a :: r).takeWhile p = l := by
  induction l with
  | nil => simp [List.takeWhile, ha]
  | cons x xs ih =>
    have hx := hl x (List.mem_cons_self x xs)
    simp [List.takeWhile, hx, ih (fun y hy => hl y (List.mem_cons_of_mem x hy))]

theorem pathBase_final_component (dir name : String) (hne : name ≠ "")
    (hslash : '/' ∉ name.toList) : pathBase (dir ++ "/" ++ name) = name := by
  obtain ⟨d⟩ := dir
  obtain ⟨n⟩ := name
  have hn : n ≠ [] := fun h => hne (by simp [h])
  have hnot : ∀ x ∈ n.reverse, (x != '/') = true := by
    intro x hx
    have hx1 : x ∈ n := List.mem_reverse.mp hx
    simp only [bne_iff_ne, ne_eq]
    intro h
    exact hslash (by simpa [h] using hx1)
  have hpath : (⟨d⟩ ++ "/" ++ ⟨n⟩ : String) = ⟨d ++ '/' :: n⟩ := by
    apply String.ext
    simp
  have hne2 : (⟨d ++ '/' :: n⟩ : String) ≠ "" := by
    intro h
    have := congrArg String.data h
    simp at this
  rw [hpath]
  unfold pathBase
  rw [if_neg hne2]
  have hrev : (d ++ '/' :: n).reverse = n.reverse ++ '/' :: d.reverse := by simp
  have hdrop : (n.reverse ++ '/' :: d.reverse).dropWhile (fun c => c == '/') =
      n.reverse ++ '/' :: d.reverse := by
    cases hr : n.reverse with
    | nil => simp at hr; exact absurd hr hn
    | cons x xs =>
      have hx : (x != '/') = true := hnot x (by simp [hr])
      have hx1 : (x == '/') = false := by simpa [bne] using hx
      simp [List.dropWhile, hx1]
  simp only [String.toList, hrev, hdrop, List.reverse_reverse]
  rw [takeWhile_append_stop (fun c => c != '/') n.reverse d.reverse '/' hnot (by simp)]
  simp [hn]


/-! ## Go maps -/

namespace GoMap
variable {κ υ : Type} [DecidableEq κ]

theorem get?_set (m : GoMap κ υ) (k k1 : κ) (v : υ) :
    (m.set k v).get? k1 = if k = k1 then some v else m.get? k1 := by
  induction m with
  | nil => simp [set, get?]
  | cons p rest ih =>
    obtain ⟨a, b⟩ := p
    by_cases hak : a = k
    · subst hak
      by_cases h1 : a = k1 <;> simp [set, get?, h1]
    · by_cases h1 : a = k1
      · subst h1
        have : ¬ k = a := fun h => hak h.symm
        simp [set, get?, hak, this]
      · simp [set, get?, hak, h1, ih]

theorem keys_set (m : GoMap κ υ) (k : κ) (v : υ) :
    (m.set k v).keys = if k ∈ m.keys then m.keys else m.keys ++ [k] := by
  induction m with
  | nil => simp [set, keys]
  | cons p rest ih =>
    obtain ⟨a, b⟩ := p
    by_cases hak : a = k
    · subst hak
      simp [set, keys]
    · have hka : ¬ k = a := fun h => hak h.symm
      have ih1 : List.map Prod.fst (set rest k v) =
          if k ∈ List.map Prod.fst rest then List.map Prod.fst rest else List.map Prod.fst rest ++ [k] := ih
      simp only [set, hak, if_false, keys, List.map_cons, List.mem_cons, hka, false_or, ih1]
      split <;> simp

theorem nodup_keys_set (m : GoMap κ υ) (k : κ) (v : υ) (h : m.keys.Nodup) :
    (m.set k v).keys.Nodup := by
  rw [keys_set]
  split
  · exact h
  · rename_i hk
    exact List.Nodup.append h (List.nodup_singleton k) (by simpa using hk)

theorem mem_keys_iff (m : GoMap κ υ) (k : κ) : k ∈ m.keys ↔ m.get? k ≠ none := by
  induction m with
  | nil => simp [keys, get?]
  | cons p rest ih =>
    obtain ⟨a, b⟩ := p
    have ih1 : k ∈ List.map Prod.fst rest ↔ get? rest k ≠ none := ih
    by_cases hak : a = k
    · simp [keys, get?, hak]
    · have hka : ¬ k = a := fun h => hak h.symm
      simp only [keys, List.map_cons, List.mem_cons, hka, false_or, get?, hak, if_false, ih1]

theorem mem_of_get? (m : GoMap κ υ) (k : κ) (v : υ) (h : m.get? k = some v) :
    (k, v) ∈ m.entries := by
  induction m with
  | nil => simp [get?] at h
  | cons p rest ih =>
    obtain ⟨a, b⟩ := p
    by_cases hak : a = k
    · simp only [get?, hak, if_true, Option.some.injEq] at h
      simp [entries, hak, h]
    · simp only [get?, hak, if_false] at h
      exact List.mem_cons_of_mem _ (ih h)

theorem get?_of_mem (m : GoMap κ υ) (k : κ) (v : υ) (hn : m.keys.Nodup)
    (h : (k, v) ∈ m.entries) : m.get? k = some v := by
  induction m with
  | nil => simp [entries] at h
  | cons p rest ih =>
    obtain ⟨a, b⟩ := p
    have hn1 : a ∉ List.map Prod.fst rest ∧ (List.map Prod.fst rest).Nodup := by
      simpa [keys] using hn
    rcases List.mem_cons.mp h with heq | hmem
    · simp only [Prod.mk.injEq] at heq
      simp [get?, heq.1, heq.2]
    · have hka : a ≠ k := by
        intro hak
        apply hn1.1
        rw [hak]
        exact List.mem_map_of_mem Prod.fst hmem
      simp only [get?, hka, if_false]
      exact ih hn1.2 hmem

end GoMap

/-! ## Volume manager -/

section manager

open volumeManager

variable {σ : Type}

/-- Run of `AttachVolume` when the pre-check describe reports the volume bound to the target
instance: the attach request and the job wait are skipped. -/
theorem AttachVolume_attached_run (vm : volumeManager σ) (volumeID instanceID d1 d : String)
    (s s1 s2 : σ) (log : List Call) (out1 out2 : DescribeVolumesOutput)
    (h1 : vm.cloud.DescribeVolumes { Volumes := [volumeID] } s = (Reply.ok out1, s1))
    (hb1 : ReportsBound out1 instanceID d1)
    (h2 : vm.cloud.DescribeVolumes { Volumes := [volumeID] } s1 = (Reply.ok out2, s2))
    (hb2 : ReportsBound out2 instanceID d) (hd : d ≠ "") :
    vm.traced.AttachVolume volumeID instanceID (s, log) =
      (Outcome.ret (d, none),
        (s2, log ++ [Call.describeVolumes { Volumes := [volumeID] } (Reply.ok out1),
                     Call.describeVolumes { Volumes := [volumeID] } (Reply.ok out2)])) := by
  obtain ⟨v1, rest1, i1, hv1, hi1, hid, -⟩ := hb1
  obtain ⟨v2, rest2, i2, hv2, hi2, -, hdev⟩ := hb2
  simp [AttachVolume, VolumeIsAttached, volumeManager.traced, Cloud.traced, bind, pure, Go.call,
    Go.index, Go.deref, h1, hv1, hi1, hid, h2, hv2, hi2, hdev, hd]

/-- C1: on a volume that describe reports as bound to `instanceID` with the non-empty device
`d`, `AttachVolume` sends two describe requests and nothing else (no attach request, no job
wait) and returns `(d, nil)`; a second call right after does the same. `P` is any set of
cloud states that describe does not leave and in which describe gives that report. -/
theorem AttachVolume_idempotent_when_attached (vm : volumeManager σ)
    (volumeID instanceID d : String) (P : σ → Prop) (s : σ) (log : List Call)
    (hstable : ∀ t, P t → ∃ out t1,
      vm.cloud.DescribeVolumes { Volumes := [volumeID] } t = (Reply.ok out, t1) ∧
      ReportsBound out instanceID d ∧ P t1)
    (hs : P s) (hd : d ≠ "") :
    ∃ out1 out2 s1,
      vm.traced.AttachVolume volumeID instanceID (s, log) =
        (Outcome.ret (d, none),
          (s1, log ++ [Call.describeVolumes { Volumes := [volumeID] } (Reply.ok out1),
                       Call.describeVolumes { Volumes := [volumeID] } (Reply.ok out2)])) ∧
      P s1 ∧
      ∃ out3 out4 s2,
        vm.traced.AttachVolume volumeID instanceID
            (s1, log ++ [Call.describeVolumes { Volumes := [volumeID] } (Reply.ok out1),
                         Call.describeVolumes { Volumes := [volumeID] } (Reply.ok out2)]) =
          (Outcome.ret (d, none),
            (s2, log ++ [Call.describeVolumes { Volumes := [volumeID] } (Reply.ok out1),
                         Call.describeVolumes { Volumes := [volumeID] } (Reply.ok out2),
                         Call.describeVolumes { Volumes := [volumeID] } (Reply.ok out3),
                         Call.describeVolumes { Volumes := [volumeID] } (Reply.ok out4)])) ∧
        P s2 := by
  obtain ⟨out1, t1, h1, hb1, hp1⟩ := hstable s hs
  obtain ⟨out2, t2, h2, hb2, hp2⟩ := hstable t1 hp1
  obtain ⟨out3, t3, h3, hb3, hp3⟩ := hstable t2 hp2
  obtain ⟨out4, t4, h4, hb4, hp4⟩ := hstable t3 hp3
  refine ⟨out1, out2, t2, ?_, hp2, out3, out4, t4, ?_, hp4⟩
  · exact AttachVolume_attached_run vm volumeID instanceID d d s t1 t2 log out1 out2 h1 hb1 h2 hb2 hd
  · have := AttachVolume_attached_run vm volumeID instanceID d d t2 t3 t4
      (log ++ [Call.describeVolumes { Volumes := [volumeID] } (Reply.ok out1),
               Call.describeVolumes { Volumes := [volumeID] } (Reply.ok out2)])
      out3 out4 h3 hb3 h4 hb4 hd
    simpa using this

/-- Witness of C1 on the in-memory cloud: `vol-1` is attached to `i-1` as `/dev/sdb`. -/
theorem AttachVolume_idempotent_when_attached_witness :
    ∃ out1 out2 s1,
      (fakeManager allSucceed).traced.AttachVolume "vol-1" "i-1"
          ([[boundVolume "vol-1" "i-1" "/dev/sdb"]], []) =
        (Outcome.ret ("/dev/sdb", none),
          (s1, [] ++ [Call.describeVolumes { Volumes := ["vol-1"] } (Reply.ok out1),
                       Call.describeVolumes { Volumes := ["vol-1"] } (Reply.ok out2)])) ∧
      s1 = [[boundVolume "vol-1" "i-1" "/dev/sdb"]] ∧
      ∃ out3 out4 s2,
        (fakeManager allSucceed).traced.AttachVolume "vol-1" "i-1"
            (s1, [] ++ [Call.describeVolumes { Volumes := ["vol-1"] } (Reply.ok out1),
                         Call.describeVolumes { Volumes := ["vol-1"] } (Reply.ok out2)]) =
          (Outcome.ret ("/dev/sdb", none),
            (s2, [] ++ [Call.describeVolumes { Volumes := ["vol-1"] } (Reply.ok out1),
                         Call.describeVolumes { Volumes := ["vol-1"] } (Reply.ok out2),
                         Call.describeVolumes { Volumes := ["vol-1"] } (Reply.ok out3),
                         Call.describeVolumes { Volumes := ["vol-1"] } (Reply.ok out4)])) ∧
        s2 = [[boundVolume "vol-1" "i-1" "/dev/sdb"]] :=
  AttachVolume_idempotent_when_attached (fakeManager allSucceed) "vol-1" "i-1" "/dev/sdb"
    (fun st => st = [[boundVolume "vol-1" "i-1" "/dev/sdb"]])
    [[boundVolume "vol-1" "i-1" "/dev/sdb"]] []
    (fun t ht => ⟨⟨[boundVolume "vol-1" "i-1" "/dev/sdb"]⟩, t, by subst ht; rfl,
      ⟨boundVolume "vol-1" "i-1" "/dev/sdb", [], ⟨some "i-1", some "/dev/sdb"⟩, rfl, rfl, rfl, rfl⟩, ht⟩)
    rfl (by decide)


theorem initAttached_get? (ids : List String) (m : GoMap String Bool) (k : String) :
    (initAttached ids m).get? k = if k ∈ ids then some false else m.get? k := by
  induction ids generalizing m with
  | nil => simp [initAttached]
  | cons id rest ih =>
    rw [initAttached, ih, GoMap.get?_set]
    by_cases h1 : k ∈ rest
    · simp [h1]
    · by_cases h2 : id = k
      · subst h2; simp [h1]
      · have : ¬ k = id := fun h => h2 h.symm
        simp [h1, h2, this]

theorem initAttached_nodup (ids : List String) (m : GoMap String Bool) (h : m.keys.Nodup) :
    (initAttached ids m).keys.Nodup := by
  induction ids generalizing m with
  | nil => simpa [initAttached] using h
  | cons id rest ih =>
    rw [initAttached]
    exact ih _ (GoMap.nodup_keys_set m id false h)

theorem markAttached_complete (instanceID : String) (vols : List Volume) (m : GoMap String Bool)
    (s : σ) (hc : ∀ v ∈ vols, v.complete = true) (hn : m.keys.Nodup) :
    ∃ m1, markAttached instanceID vols m s = (Outcome.ret m1, s) ∧ m1.keys.Nodup ∧
      ∀ k, m1.get? k =
        if vols.any (fun v => decide (v.VolumeID = some k) && v.boundTo instanceID) = true
        then some true else m.get? k := by
  induction vols generalizing m with
  | nil => exact ⟨m, rfl, hn, by simp⟩
  | cons v rest ih =>
    have hv := hc v (List.mem_cons_self v rest)
    have hrest : ∀ w ∈ rest, w.complete = true := fun w hw => hc w (List.mem_cons_of_mem v hw)
    obtain ⟨vid, inst⟩ := v
    cases vid with
    | none => simp [Volume.complete] at hv
    | some vid =>
      cases inst with
      | none => simp [Volume.complete] at hv
      | some inst =>
        obtain ⟨iid, dev⟩ := inst
        cases iid with
        | none => simp [Volume.complete] at hv
        | some iid =>
          by_cases hb : iid = instanceID
          · obtain ⟨m1, hrun, hnd, hget⟩ := ih (m.set vid true) hrest (GoMap.nodup_keys_set m vid true hn)
            refine ⟨m1, ?_, hnd, ?_⟩
            · simp [markAttached, bind, pure, Go.deref, hb, hrun]
            · intro k
              rw [hget k, GoMap.get?_set]
              by_cases hk : vid = k
              · simp [hk, Volume.boundTo, hb]
              · simp [hk, Volume.boundTo, hb]
          · obtain ⟨m1, hrun, hnd, hget⟩ := ih m hrest hn
            refine ⟨m1, ?_, hnd, ?_⟩
            · simp [markAttached, bind, pure, Go.deref, hb, hrun]
            · intro k
              rw [hget k]
              simp [Volume.boundTo, hb]


/-- C2 (amended): for every successful describe response whose volumes all carry an ID and an
attachment record with an instance ID, `DisksAreAttached` returns a map without repeated
keys in which every input ID is a key; an ID maps to `true` exactly when the response lists
a volume with that ID attached to `instanceID`; it maps to `false` when it is an input ID
that is not so listed; the only keys besides the input IDs are the IDs of listed attached
volumes, so the key set is the set of input IDs whenever the response lists only volumes
that were asked for. -/
theorem DisksAreAttached_map (vm : volumeManager σ) (volumeIDs : List String)
    (instanceID : String) (s s1 : σ) (out : DescribeVolumesOutput)
    (h1 : vm.cloud.DescribeVolumes { Volumes := volumeIDs } s = (Reply.ok out, s1))
    (hc : ∀ v ∈ out.VolumeSet, v.complete = true) :
    ∃ m, vm.DisksAreAttached volumeIDs instanceID s = (Outcome.ret (m, none), s1) ∧
      m.keys.Nodup ∧
      (∀ id, m.get? id =
        if listsAttached out instanceID id = true then some true
        else if id ∈ volumeIDs then some false else none) ∧
      (∀ id, id ∈ m.keys ↔ (id ∈ volumeIDs ∨ listsAttached out instanceID id = true)) ∧
      ((∀ v ∈ out.VolumeSet, ∀ id, v.VolumeID = some id → id ∈ volumeIDs) →
        ∀ id, id ∈ m.keys ↔ id ∈ volumeIDs) := by
  have hinit : (initAttached volumeIDs (GoMap.empty : GoMap String Bool)).keys.Nodup :=
    initAttached_nodup volumeIDs GoMap.empty (by simp [GoMap.empty, GoMap.keys])
  obtain ⟨m, hrun, hnd, hget⟩ :=
    markAttached_complete instanceID out.VolumeSet (initAttached volumeIDs GoMap.empty) s1 hc hinit
  have hget1 : ∀ id, m.get? id =
      if listsAttached out instanceID id = true then some true
      else if id ∈ volumeIDs then some false else none := by
    intro id
    rw [hget id, initAttached_get?]
    simp [listsAttached, GoMap.empty, GoMap.get?]
  have hkeys : ∀ id, id ∈ m.keys ↔ (id ∈ volumeIDs ∨ listsAttached out instanceID id = true) := by
    intro id
    rw [GoMap.mem_keys_iff, hget1 id]
    by_cases ha : listsAttached out instanceID id = true
    · simp [ha]
    · by_cases hi : id ∈ volumeIDs <;> simp [ha, hi]
  refine ⟨m, ?_, hnd, hget1, hkeys, ?_⟩
  · simp [DisksAreAttached, bind, pure, Go.call, h1, hrun]
  · intro hsub id
    rw [hkeys id]
    constructor
    · rintro (h | h)
      · exact h
      · simp only [listsAttached, List.any_eq_true, Bool.and_eq_true, decide_eq_true_eq] at h
        obtain ⟨v, hv, hid, -⟩ := h
        exact hsub v hv id hid
    · exact Or.inl

/-- Witness of C2 (amended): `vol-1` is attached to `i-1`, `vol-2` to another instance and
`vol-3` is unknown to the cloud. -/
theorem DisksAreAttached_map_witness :
    ∃ m, (fakeManager allSucceed).DisksAreAttached ["vol-1", "vol-2", "vol-3"] "i-1"
        [[boundVolume "vol-1" "i-1" "/dev/sdb", boundVolume "vol-2" "i-2" "/dev/sdb"]] =
        (Outcome.ret (m, none),
          [[boundVolume "vol-1" "i-1" "/dev/sdb", boundVolume "vol-2" "i-2" "/dev/sdb"]]) ∧
      m.keys.Nodup ∧
      (∀ id, m.get? id =
        if listsAttached
            { VolumeSet := [boundVolume "vol-1" "i-1" "/dev/sdb", boundVolume "vol-2" "i-2" "/dev/sdb"] }
            "i-1" id = true then some true
        else if id ∈ ["vol-1", "vol-2", "vol-3"] then some false else none) ∧
      (∀ id, id ∈ m.keys ↔ (id ∈ ["vol-1", "vol-2", "vol-3"] ∨
        listsAttached
            { VolumeSet := [boundVolume "vol-1" "i-1" "/dev/sdb", boundVolume "vol-2" "i-2" "/dev/sdb"] }
            "i-1" id = true)) ∧
      ((∀ v ∈ [boundVolume "vol-1" "i-1" "/dev/sdb", boundVolume "vol-2" "i-2" "/dev/sdb"],
          ∀ id, v.VolumeID = some id → id ∈ ["vol-1", "vol-2", "vol-3"]) →
        ∀ id, id ∈ m.keys ↔ id ∈ ["vol-1", "vol-2", "vol-3"]) :=
  DisksAreAttached_map (fakeManager allSucceed) ["vol-1", "vol-2", "vol-3"] "i-1"
    [[boundVolume "vol-1" "i-1" "/dev/sdb", boundVolume "vol-2" "i-2" "/dev/sdb"]]
    [[boundVolume "vol-1" "i-1" "/dev/sdb", boundVolume "vol-2" "i-2" "/dev/sdb"]]
    { VolumeSet := [boundVolume "vol-1" "i-1" "/dev/sdb", boundVolume "vol-2" "i-2" "/dev/sdb"] }
    (by decide) (by decide)

/-- Counterexample to C2 as stated: asked about no volume at all, the cloud lists `vol-9`,
which is attached to `i-1`; the describe request succeeds, and the returned map has the key
`vol-9`, which is not an input ID. -/
theorem DisksAreAttached_extra_key :
    (fakeManager allSucceed).DisksAreAttached [] "i-1" [[boundVolume "vol-9" "i-1" "/dev/sdc"]] =
        (Outcome.ret ([("vol-9", true)], none), [[boundVolume "vol-9" "i-1" "/dev/sdc"]]) ∧
      (fakeManager allSucceed).cloud.DescribeVolumes { Volumes := [] }
          [[boundVolume "vol-9" "i-1" "/dev/sdc"]] =
        (Reply.ok { VolumeSet := [boundVolume "vol-9" "i-1" "/dev/sdc"] },
          [[boundVolume "vol-9" "i-1" "/dev/sdc"]]) ∧
      "vol-9" ∈ GoMap.keys ([("vol-9", true)] : GoMap String Bool) ∧
      "vol-9" ∉ ([] : List String) := by
  refine ⟨by rfl, by rfl, by decide, by decide⟩

/-- C3: when describe succeeds and returns no volume for `volumeID` (the volume is not in the
provider's state), `VolumeIsAttached` returns `(false, nil)`, for every instance ID. -/
theorem VolumeIsAttached_absent (vm : volumeManager σ) (volumeID instanceID : String)
    (s s1 : σ) (out : DescribeVolumesOutput)
    (h1 : vm.cloud.DescribeVolumes { Volumes := [volumeID] } s = (Reply.ok out, s1))
    (hv : out.VolumeSet = []) :
    vm.VolumeIsAttached volumeID instanceID s = (Outcome.ret (false, none), s1) := by
  simp [VolumeIsAttached, bind, pure, Go.call, h1, hv]

/-- Witness of C3: `vol-404` is not in the table of the in-memory cloud. -/
theorem VolumeIsAttached_absent_witness :
    (fakeManager allSucceed).VolumeIsAttached "vol-404" "i-1" [[freeVolume "vol-1"]] =
      (Outcome.ret (false, none), [[freeVolume "vol-1"]]) :=
  VolumeIsAttached_absent (fakeManager allSucceed) "vol-404" "i-1"
    [[freeVolume "vol-1"]] [[freeVolume "vol-1"]] { VolumeSet := [] } (by decide) rfl

/-- C4: when the delete request fails with the error `e`, `DeleteVolume` sends nothing else
(no job wait); it returns `(false, nil)` if the message of `e` contains
"already been deleted", and `(false, e)` if it does not. -/
theorem DeleteVolume_error (vm : volumeManager σ) (volumeID : String)
    (s s1 : σ) (log : List Call) (e : Error)
    (h1 : vm.cloud.DeleteVolumes { Volumes := [volumeID] } s = (Reply.error e, s1)) :
    ("already been deleted".toList <:+: e.msg.toList →
      vm.traced.DeleteVolume volumeID (s, log) =
        (Outcome.ret (false, none),
          (s1, log ++ [Call.deleteVolumes { Volumes := [volumeID] } (Reply.error e)]))) ∧
    (¬ "already been deleted".toList <:+: e.msg.toList →
      vm.traced.DeleteVolume volumeID (s, log) =
        (Outcome.ret (false, some e),
          (s1, log ++ [Call.deleteVolumes { Volumes := [volumeID] } (Reply.error e)]))) := by
  have key := stringsIndex_nonneg_iff e.msg "already been deleted"
  constructor
  · intro h
    have := key.mpr h
    simp [DeleteVolume, volumeManager.traced, Cloud.traced, bind, pure, Go.call, h1, this]
  · intro h
    have : ¬ 0 ≤ stringsIndex e.msg "already been deleted" := fun h0 => h (key.mp h0)
    simp [DeleteVolume, volumeManager.traced, Cloud.traced, bind, pure, Go.call, h1, this]

/-- Witness of C4: the cloud answers the delete request with
"ResourceNotFound, resource [vol-1] has already been deleted". -/
theorem DeleteVolume_error_witness :
    (fakeManager { allSucceed with
        delete := Reply.error ⟨"ResourceNotFound, resource [vol-1] has already been deleted"⟩ }).traced.DeleteVolume
        "vol-1" ([[]], []) =
      (Outcome.ret (false, none),
        ([], [] ++ [Call.deleteVolumes { Volumes := ["vol-1"] }
          (Reply.error ⟨"ResourceNotFound, resource [vol-1] has already been deleted"⟩)])) :=
  (DeleteVolume_error
    (fakeManager { allSucceed with
      delete := Reply.error ⟨"ResourceNotFound, resource [vol-1] has already been deleted"⟩ })
    "vol-1" [[]] [] []
    ⟨"ResourceNotFound, resource [vol-1] has already been deleted"⟩ rfl).1
    ⟨"ResourceNotFound, resource [vol-1] has ".toList, [], by decide⟩

/-- Logging does not change what `VolumeIsAttached` does: one describe request is logged. -/
theorem VolumeIsAttached_traced (vm : volumeManager σ) (volumeID instanceID : String)
    (s : σ) (log : List Call) :
    vm.traced.VolumeIsAttached volumeID instanceID (s, log) =
      ((vm.VolumeIsAttached volumeID instanceID s).1,
        ((vm.cloud.DescribeVolumes { Volumes := [volumeID] } s).2,
          log ++ [Call.describeVolumes { Volumes := [volumeID] }
            (vm.cloud.DescribeVolumes { Volumes := [volumeID] } s).1])) := by
  rcases h1 : vm.cloud.DescribeVolumes { Volumes := [volumeID] } s with ⟨r1, t1⟩
  cases r1 with
  | error e => simp [VolumeIsAttached, volumeManager.traced, Cloud.traced, bind, pure, Go.call, h1]
  | ok out =>
    rcases hvs : out.VolumeSet with _ | ⟨v, rest⟩
    · simp [VolumeIsAttached, volumeManager.traced, Cloud.traced, bind, pure, Go.call, h1, hvs]
    · rcases hi : v.Instance with _ | inst
      · simp [VolumeIsAttached, volumeManager.traced, Cloud.traced, bind, pure, Go.call, Go.index,
          Go.deref, Go.raise, h1, hvs, hi]
      · rcases hid : inst.InstanceID with _ | id
        · simp [VolumeIsAttached, volumeManager.traced, Cloud.traced, bind, pure, Go.call,
            Go.index, Go.deref, Go.raise, h1, hvs, hi, hid]
        · simp [VolumeIsAttached, volumeManager.traced, Cloud.traced, bind, pure, Go.call,
            Go.index, Go.deref, Go.raise, h1, hvs, hi, hid]

/-- When the pre-check finds the volume attached, `AttachVolume` goes on with the last stage. -/
theorem AttachVolume_of_attached (vm : volumeManager σ) (volumeID instanceID : String)
    (s s1 : σ)
    (hpre : vm.VolumeIsAttached volumeID instanceID s = (Outcome.ret (true, none), s1)) :
    vm.AttachVolume volumeID instanceID s = vm.describeDevice volumeID s1 := by
  simp [AttachVolume, describeDevice, bind, pure, hpre]

/-- When the pre-check finds the volume not attached, the attach request is accepted as job
`jobID` and the wait on it succeeds, `AttachVolume` goes on with the last stage. -/
theorem AttachVolume_of_waited (vm : volumeManager σ) (volumeID instanceID jobID : String)
    (s s1 s2 s3 : σ) (output : AttachVolumesOutput)
    (hpre : vm.VolumeIsAttached volumeID instanceID s = (Outcome.ret (false, none), s1))
    (hatt : vm.cloud.AttachVolumes { Volumes := [volumeID], Instance := instanceID } s1 =
      (Reply.ok output, s2))
    (hjob : output.JobID = some jobID)
    (hwait : vm.cloud.WaitJob jobID vm.operationWaitTimeout vm.waitInterval s2 = (none, s3)) :
    vm.AttachVolume volumeID instanceID s = vm.describeDevice volumeID s3 := by
  simp [AttachVolume, describeDevice, bind, pure, Go.call, Go.deref, hpre, hatt, hjob, hwait]

/-- Logging does not change what the last stage does: one describe request is logged. -/
theorem describeDevice_traced (vm : volumeManager σ) (volumeID : String) (s : σ) (log : List Call) :
    vm.traced.describeDevice volumeID (s, log) =
      ((vm.describeDevice volumeID s).1,
        ((vm.cloud.DescribeVolumes { Volumes := [volumeID] } s).2,
          log ++ [Call.describeVolumes { Volumes := [volumeID] }
            (vm.cloud.DescribeVolumes { Volumes := [volumeID] } s).1])) := by
  rcases h1 : vm.cloud.DescribeVolumes { Volumes := [volumeID] } s with ⟨r1, t1⟩
  cases r1 with
  | error e => simp [describeDevice, volumeManager.traced, Cloud.traced, bind, pure, Go.call, h1]
  | ok out =>
    rcases hvs : out.VolumeSet with _ | ⟨v, rest⟩
    · simp [describeDevice, volumeManager.traced, Cloud.traced, bind, pure, Go.call, h1, hvs]
    · rcases hi : v.Instance with _ | inst
      · simp [describeDevice, volumeManager.traced, Cloud.traced, bind, pure, Go.call, Go.index,
          Go.deref, Go.raise, h1, hvs, hi]
      · rcases hdev : inst.Device with _ | dev
        · simp [describeDevice, volumeManager.traced, Cloud.traced, bind, pure, Go.call,
            Go.index, Go.deref, Go.raise, h1, hvs, hi, hdev]
        · by_cases hd : dev = "" <;>
          simp [describeDevice, volumeManager.traced, Cloud.traced, bind, pure, Go.call,
            Go.index, Go.deref, Go.raise, h1, hvs, hi, hdev, hd]

/-- The last stage returns a device only when the describe reply lists a first volume with an
attachment record whose device is that one, and it is not empty. -/
theorem describeDevice_success (vm : volumeManager σ) (volumeID d : String) (s : σ)
    (h : (vm.describeDevice volumeID s).1 = Outcome.ret (d, none)) :
    d ≠ "" ∧ ∃ out vol rest inst,
      (vm.cloud.DescribeVolumes { Volumes := [volumeID] } s).1 = Reply.ok out ∧
      out.VolumeSet = vol :: rest ∧ vol.Instance = some inst ∧ inst.Device = some d := by
  rcases h1 : vm.cloud.DescribeVolumes { Volumes := [volumeID] } s with ⟨r1, t1⟩
  cases r1 with
  | error e => simp [describeDevice, bind, pure, Go.call, h1] at h
  | ok out =>
    rcases hvs : out.VolumeSet with _ | ⟨v, rest⟩
    · simp [describeDevice, bind, pure, Go.call, h1, hvs] at h
    · rcases hi : v.Instance with _ | inst
      · simp [describeDevice, bind, pure, Go.call, Go.index, Go.deref, Go.raise, h1, hvs, hi] at h
      · rcases hdev : inst.Device with _ | dev
        · simp [describeDevice, bind, pure, Go.call, Go.index, Go.deref, Go.raise, h1, hvs, hi,
            hdev] at h
        · by_cases hd : dev = ""
          · simp [describeDevice, bind, pure, Go.call, Go.index, Go.deref, Go.raise, h1, hvs, hi,
              hdev, hd] at h
          · simp [describeDevice, bind, pure, Go.call, Go.index, Go.deref, Go.raise, h1, hvs, hi,
              hdev, hd] at h
            subst h
            exact ⟨hd, out, v, rest, inst, rfl, hvs, hi, hdev⟩

/-- The last stage returns the error `volume ... miss after attach it` when the describe reply
lists no volume. -/
theorem describeDevice_missing (vm : volumeManager σ) (volumeID : String) (s : σ)
    (out : DescribeVolumesOutput)
    (h1 : (vm.cloud.DescribeVolumes { Volumes := [volumeID] } s).1 = Reply.ok out)
    (hvs : out.VolumeSet = []) :
    (vm.describeDevice volumeID s).1 =
      Outcome.ret ("", some ⟨"volume \x27" ++ volumeID ++ "\x27 miss after attach it"⟩) := by
  simp [describeDevice, bind, pure, Go.call, h1, hvs]

/-- The last stage returns the error `the device of volume ... is empty` when the first volume
of the describe reply has an attachment record with no device or a blank one. -/
theorem describeDevice_blank (vm : volumeManager σ) (volumeID : String) (s : σ)
    (out : DescribeVolumesOutput) (vol : Volume) (rest : List Volume) (inst : Instance)
    (h1 : (vm.cloud.DescribeVolumes { Volumes := [volumeID] } s).1 = Reply.ok out)
    (hvs : out.VolumeSet = vol :: rest) (hi : vol.Instance = some inst)
    (hdev : inst.Device = none ∨ inst.Device = some "") :
    (vm.describeDevice volumeID s).1 =
      Outcome.ret ("", some ⟨"the device of volume \x27" ++ volumeID ++ "\x27 is empty"⟩) := by
  rcases hdev with hdev | hdev <;>
  simp [describeDevice, bind, pure, Go.call, Go.index, Go.deref, h1, hvs, hi, hdev]


/-- Every run of `AttachVolume` either reaches the last stage, after at least one request and
with every attach request accepted as a job that was waited to success, or ends before it:
then it returns no device, and its log does not end with a describe reply that follows
another request. -/
theorem AttachVolume_stages (vm : volumeManager σ) (volumeID instanceID : String) (s : σ) :
    (∃ st pre, pre ≠ [] ∧
      vm.traced.AttachVolume volumeID instanceID (s, []) = vm.traced.describeDevice volumeID (st, pre) ∧
      (∀ input reply, Call.attachVolumes input reply ∈ pre →
        ∃ jobID, reply = Reply.ok { JobID := some jobID } ∧
          Call.waitJob jobID vm.operationWaitTimeout vm.waitInterval none ∈ pre)) ∨
    ((∀ d, (vm.traced.AttachVolume volumeID instanceID (s, [])).1 ≠ Outcome.ret (d, none)) ∧
      (∀ pre out, (vm.traced.AttachVolume volumeID instanceID (s, [])).2.2 =
        pre ++ [Call.describeVolumes { Volumes := [volumeID] } (Reply.ok out)] → pre = [])) := by
  have hpre := VolumeIsAttached_traced vm volumeID instanceID s []
  rcases h1 : vm.cloud.DescribeVolumes { Volumes := [volumeID] } s with ⟨r1, t1⟩
  rw [h1] at hpre
  simp only [List.nil_append] at hpre
  rcases ho : (vm.VolumeIsAttached volumeID instanceID s).1 with ⟨attached, err⟩ | f
  · rw [ho] at hpre
    cases err with
    | some e =>
      right
      have hrun : vm.traced.AttachVolume volumeID instanceID (s, []) =
          (Outcome.ret ("", some e), (t1, [Call.describeVolumes { Volumes := [volumeID] } r1])) := by
        simp [AttachVolume, bind, pure, hpre]
      rw [hrun]
      refine ⟨by simp, ?_⟩
      intro pre out h
      have := congrArg List.length h
      simp at this
      exact this
    | none =>
      cases attached with
      | true =>
        left
        refine ⟨t1, [Call.describeVolumes { Volumes := [volumeID] } r1], by simp, ?_, by simp⟩
        exact AttachVolume_of_attached vm.traced volumeID instanceID _ _ hpre
      | false =>
        rcases h2 : vm.cloud.AttachVolumes { Volumes := [volumeID], Instance := instanceID } t1
          with ⟨r2, t2⟩
        have h2t : vm.traced.cloud.AttachVolumes { Volumes := [volumeID], Instance := instanceID }
            (t1, [Call.describeVolumes { Volumes := [volumeID] } r1]) =
            (r2, (t2, [Call.describeVolumes { Volumes := [volumeID] } r1,
              Call.attachVolumes { Volumes := [volumeID], Instance := instanceID } r2])) := by
          simp [volumeManager.traced, Cloud.traced, h2]
        cases r2 with
        | error e =>
          right
          have hrun : vm.traced.AttachVolume volumeID instanceID (s, []) =
              (Outcome.ret ("", some e), (t2, [Call.describeVolumes { Volumes := [volumeID] } r1,
                Call.attachVolumes { Volumes := [volumeID], Instance := instanceID } (Reply.error e)])) := by
            simp [AttachVolume, bind, pure, Go.call, hpre, h2t]
          rw [hrun]
          refine ⟨by simp, ?_⟩
          intro pre out h
          have := congrArg List.getLast? h
          simp at this
        | ok outA =>
          rcases hj : outA.JobID with _ | jobID
          · right
            have hrun : vm.traced.AttachVolume volumeID instanceID (s, []) =
                (Outcome.fault Fault.nilDereference,
                  (t2, [Call.describeVolumes { Volumes := [volumeID] } r1,
                    Call.attachVolumes { Volumes := [volumeID], Instance := instanceID } (Reply.ok outA)])) := by
              simp [AttachVolume, bind, pure, Go.call, Go.deref, Go.raise, hpre, h2t, hj]
            rw [hrun]
            refine ⟨by simp, ?_⟩
            intro pre out h
            have := congrArg List.getLast? h
            simp at this
          · rcases h3 : vm.cloud.WaitJob jobID vm.operationWaitTimeout vm.waitInterval t2
              with ⟨r3, t3⟩
            have h3t : vm.traced.cloud.WaitJob jobID vm.traced.operationWaitTimeout
                vm.traced.waitInterval
                (t2, [Call.describeVolumes { Volumes := [volumeID] } r1,
                  Call.attachVolumes { Volumes := [volumeID], Instance := instanceID } (Reply.ok outA)]) =
                (r3, (t3, [Call.describeVolumes { Volumes := [volumeID] } r1,
                  Call.attachVolumes { Volumes := [volumeID], Instance := instanceID } (Reply.ok outA),
                  Call.waitJob jobID vm.operationWaitTimeout vm.waitInterval r3])) := by
              simp [volumeManager.traced, Cloud.traced, h3]
            cases r3 with
            | some e =>
              right
              have hrun : vm.traced.AttachVolume volumeID instanceID (s, []) =
                  (Outcome.ret ("", some e),
                    (t3, [Call.describeVolumes { Volumes := [volumeID] } r1,
                      Call.attachVolumes { Volumes := [volumeID], Instance := instanceID } (Reply.ok outA),
                      Call.waitJob jobID vm.operationWaitTimeout vm.waitInterval (some e)])) := by
                simp [AttachVolume, bind, pure, Go.call, Go.deref, hpre, h2t, hj, h3t]
              rw [hrun]
              refine ⟨by simp, ?_⟩
              intro pre out h
              have := congrArg List.getLast? h
              simp at this
            | none =>
              left
              refine ⟨t3, [Call.describeVolumes { Volumes := [volumeID] } r1,
                  Call.attachVolumes { Volumes := [volumeID], Instance := instanceID } (Reply.ok outA),
                  Call.waitJob jobID vm.operationWaitTimeout vm.waitInterval none], by simp, ?_, ?_⟩
              · exact AttachVolume_of_waited vm.traced volumeID instanceID jobID _ _ _ _ outA
                  hpre h2t hj h3t
              · intro input reply hmem
                simp at hmem
                obtain ⟨-, hr⟩ := hmem
                refine ⟨jobID, ?_, by simp⟩
                rw [hr]
                cases outA
                simp at hj
                simp [hj]
  · rw [ho] at hpre
    right
    have hrun : vm.traced.AttachVolume volumeID instanceID (s, []) =
        (Outcome.fault f, (t1, [Call.describeVolumes { Volumes := [volumeID] } r1])) := by
      simp [AttachVolume, bind, pure, hpre]
    rw [hrun]
    refine ⟨by simp, ?_⟩
    intro pre out h
    have := congrArg List.length h
    simp at this
    exact this


/-- C8 (amended): `AttachVolume` returns `(d, nil)` only if `d` is not empty, the final
describe reply lists a first volume whose attachment record has the device `d`, and every
attach request it sent was accepted as a job that was waited to success. The instance ID in
that reply is not looked at. When the final describe reply lists no volume, or a first
volume whose attachment record has no device or a blank one, `AttachVolume` returns an
error. (`log` is the list of requests of the run; the final describe is a describe that is
not the first request.) -/
theorem AttachVolume_confirmed (vm : volumeManager σ) (volumeID instanceID : String)
    (s s1 : σ) (log : List Call) (r : Outcome (String × Option Error))
    (hrun : vm.traced.AttachVolume volumeID instanceID (s, []) = (r, (s1, log))) :
    (∀ d, r = Outcome.ret (d, none) →
      d ≠ "" ∧
      (∃ pre out vol rest inst,
        log = pre ++ [Call.describeVolumes { Volumes := [volumeID] } (Reply.ok out)] ∧
        pre ≠ [] ∧ out.VolumeSet = vol :: rest ∧ vol.Instance = some inst ∧
        inst.Device = some d) ∧
      (∀ input reply, Call.attachVolumes input reply ∈ log →
        ∃ jobID, reply = Reply.ok { JobID := some jobID } ∧
          Call.waitJob jobID vm.operationWaitTimeout vm.waitInterval none ∈ log)) ∧
    (∀ pre out, log = pre ++ [Call.describeVolumes { Volumes := [volumeID] } (Reply.ok out)] →
      pre ≠ [] → out.VolumeSet = [] →
      r = Outcome.ret ("", some ⟨"volume \x27" ++ volumeID ++ "\x27 miss after attach it"⟩)) ∧
    (∀ pre out vol rest inst,
      log = pre ++ [Call.describeVolumes { Volumes := [volumeID] } (Reply.ok out)] →
      pre ≠ [] → out.VolumeSet = vol :: rest → vol.Instance = some inst →
      (inst.Device = none ∨ inst.Device = some "") →
      r = Outcome.ret ("", some ⟨"the device of volume \x27" ++ volumeID ++ "\x27 is empty"⟩)) := by
  rcases AttachVolume_stages vm volumeID instanceID s with ⟨st, pre0, hne, heq, hjobs⟩ | ⟨hno, hlog⟩
  · rw [heq, describeDevice_traced] at hrun
    simp only [Prod.mk.injEq] at hrun
    obtain ⟨hr, -, hl⟩ := hrun
    have hlast : ∀ pre out,
        log = pre ++ [Call.describeVolumes { Volumes := [volumeID] } (Reply.ok out)] →
        (vm.cloud.DescribeVolumes { Volumes := [volumeID] } st).1 = Reply.ok out := by
      intro pre out h
      rw [← hl] at h
      have := congrArg List.getLast? h
      simpa using this
    refine ⟨?_, ?_, ?_⟩
    · intro d hd
      rw [hd] at hr
      obtain ⟨hd0, out, vol, rest, inst, ho, hvs, hi, hdev⟩ := describeDevice_success vm volumeID d st hr
      refine ⟨hd0, ⟨pre0, out, vol, rest, inst, ?_, hne, hvs, hi, hdev⟩, ?_⟩
      · rw [← hl, ho]
      · intro input reply hmem
        rw [← hl] at hmem
        simp only [List.mem_append, List.mem_singleton] at hmem
        rcases hmem with hmem | hmem
        · obtain ⟨jobID, h1, h2⟩ := hjobs input reply hmem
          exact ⟨jobID, h1, by rw [← hl]; exact List.mem_append_left _ h2⟩
        · cases hmem
    · intro pre out h _ hvs
      rw [← hr]
      exact describeDevice_missing vm volumeID st out (hlast pre out h) hvs
    · intro pre out vol rest inst h _ hvs hi hdev
      rw [← hr]
      exact describeDevice_blank vm volumeID st out vol rest inst (hlast pre out h) hvs hi hdev
  · rw [hrun] at hno hlog
    simp only at hno hlog
    refine ⟨?_, ?_, ?_⟩
    · intro d hd
      exact absurd hd (hno d)
    · intro pre out h hne
      exact absurd (hlog pre out h) hne
    · intro pre out vol rest inst h hne
      exact absurd (hlog pre out h) hne


/-- Witness of C8 (amended): attach of the free volume `vol-1` to `i-1`. -/
theorem AttachVolume_confirmed_witness :
    "/dev/sdb" ≠ "" ∧
    (∃ pre out vol rest inst,
      attachLog = pre ++ [Call.describeVolumes { Volumes := ["vol-1"] } (Reply.ok out)] ∧
      pre ≠ [] ∧ out.VolumeSet = vol :: rest ∧ vol.Instance = some inst ∧
      inst.Device = some "/dev/sdb") ∧
    (∀ input reply, Call.attachVolumes input reply ∈ attachLog →
      ∃ jobID, reply = Reply.ok { JobID := some jobID } ∧
        Call.waitJob jobID (fakeManager allSucceed).operationWaitTimeout
          (fakeManager allSucceed).waitInterval none ∈ attachLog) :=
  (AttachVolume_confirmed (fakeManager allSucceed) "vol-1" "i-1"
    [[freeVolume "vol-1"], [boundVolume "vol-1" "i-1" "/dev/sdb"]]
    [[boundVolume "vol-1" "i-1" "/dev/sdb"]] attachLog (Outcome.ret ("/dev/sdb", none))
    (by rfl)).1 "/dev/sdb" rfl

/-- Counterexample to C8 as stated: `vol-1` is attached to `i-2`; the cloud accepts the attach
to `i-1` and reports the job as done, but goes on listing the volume under `i-2`.
`AttachVolume` returns the device `/dev/sdc` with a nil error although the final describe
reply does not list the volume as bound to `i-1`. -/
theorem AttachVolume_unconfirmed_binding :
    (fakeManager allSucceed).traced.AttachVolume "vol-1" "i-1"
        ([[boundVolume "vol-1" "i-2" "/dev/sdc"], [boundVolume "vol-1" "i-2" "/dev/sdc"]], []) =
      (Outcome.ret ("/dev/sdc", none), ([[boundVolume "vol-1" "i-2" "/dev/sdc"]], foreignLog)) ∧
    foreignLog.getLast? = some (Call.describeVolumes { Volumes := ["vol-1"] }
      (Reply.ok { VolumeSet := [boundVolume "vol-1" "i-2" "/dev/sdc"] })) ∧
    ¬ ReportsBound { VolumeSet := [boundVolume "vol-1" "i-2" "/dev/sdc"] } "i-1" "/dev/sdc" := by
  refine ⟨by rfl, by rfl, ?_⟩
  rintro ⟨v, rest, inst, hv, hi, hid, -⟩
  simp only [List.cons.injEq] at hv
  obtain ⟨hv, -⟩ := hv
  subst hv
  simp only [boundVolume, Option.some.injEq] at hi
  subst hi
  simp at hid

/-- C9 (amended): for a volume that the pre-check describe does not report as attached to
the target instance, when the attach request is accepted as a job, the wait on the job
succeeds and the describe after it reports a non-empty device, `AttachVolume` sends exactly
one attach request, one job wait and two describe requests (the pre-check and the one after
the wait), in this order, and returns the device of the last describe reply. -/
theorem AttachVolume_fresh_attach (vm : volumeManager σ) (volumeID instanceID jobID d : String)
    (s s1 s2 s3 s4 : σ) (log : List Call) (out1 out2 : DescribeVolumesOutput)
    (outA : AttachVolumesOutput) (v2 : Volume) (rest2 : List Volume) (i2 : Instance)
    (h1 : vm.cloud.DescribeVolumes { Volumes := [volumeID] } s = (Reply.ok out1, s1))
    (hfree : out1.VolumeSet = [] ∨ ∃ v1 rest1 i1 id1, out1.VolumeSet = v1 :: rest1 ∧
      v1.Instance = some i1 ∧ i1.InstanceID = some id1 ∧ id1 ≠ instanceID)
    (h2 : vm.cloud.AttachVolumes { Volumes := [volumeID], Instance := instanceID } s1 =
      (Reply.ok outA, s2))
    (hjob : outA.JobID = some jobID)
    (h3 : vm.cloud.WaitJob jobID vm.operationWaitTimeout vm.waitInterval s2 = (none, s3))
    (h4 : vm.cloud.DescribeVolumes { Volumes := [volumeID] } s3 = (Reply.ok out2, s4))
    (hv2 : out2.VolumeSet = v2 :: rest2) (hi2 : v2.Instance = some i2)
    (hdev : i2.Device = some d) (hd : d ≠ "") :
    vm.traced.AttachVolume volumeID instanceID (s, log) =
      (Outcome.ret (d, none),
        (s4, log ++
          [Call.describeVolumes { Volumes := [volumeID] } (Reply.ok out1),
           Call.attachVolumes { Volumes := [volumeID], Instance := instanceID } (Reply.ok outA),
           Call.waitJob jobID vm.operationWaitTimeout vm.waitInterval none,
           Call.describeVolumes { Volumes := [volumeID] } (Reply.ok out2)])) := by
  rcases hfree with hv1 | ⟨v1, rest1, i1, id1, hv1, hi1, hid1, hne⟩
  · simp [AttachVolume, VolumeIsAttached, volumeManager.traced, Cloud.traced, bind, pure, Go.call,
      Go.index, Go.deref, h1, hv1, h2, hjob, h3, h4, hv2, hi2, hdev, hd]
  · simp [AttachVolume, VolumeIsAttached, volumeManager.traced, Cloud.traced, bind, pure, Go.call,
      Go.index, Go.deref, h1, hv1, hi1, hid1, hne, h2, hjob, h3, h4, hv2, hi2, hdev, hd]

/-- Witness of C9 (amended): attach of the free volume `vol-1` to `i-1`. -/
theorem AttachVolume_fresh_attach_witness :
    (fakeManager allSucceed).traced.AttachVolume "vol-1" "i-1"
        ([[freeVolume "vol-1"], [boundVolume "vol-1" "i-1" "/dev/sdb"]], []) =
      (Outcome.ret ("/dev/sdb", none),
        ([[boundVolume "vol-1" "i-1" "/dev/sdb"]], [] ++
          [Call.describeVolumes { Volumes := ["vol-1"] } (Reply.ok { VolumeSet := [freeVolume "vol-1"] }),
           Call.attachVolumes { Volumes := ["vol-1"], Instance := "i-1" }
             (Reply.ok { JobID := some "j-1" }),
           Call.waitJob "j-1" (fakeManager allSucceed).operationWaitTimeout
             (fakeManager allSucceed).waitInterval none,
           Call.describeVolumes { Volumes := ["vol-1"] }
             (Reply.ok { VolumeSet := [boundVolume "vol-1" "i-1" "/dev/sdb"] })])) :=
  AttachVolume_fresh_attach (fakeManager allSucceed) "vol-1" "i-1" "j-1" "/dev/sdb"
    [[freeVolume "vol-1"], [boundVolume "vol-1" "i-1" "/dev/sdb"]]
    [[freeVolume "vol-1"], [boundVolume "vol-1" "i-1" "/dev/sdb"]]
    [[boundVolume "vol-1" "i-1" "/dev/sdb"]] [[boundVolume "vol-1" "i-1" "/dev/sdb"]]
    [[boundVolume "vol-1" "i-1" "/dev/sdb"]] []
    { VolumeSet := [freeVolume "vol-1"] } { VolumeSet := [boundVolume "vol-1" "i-1" "/dev/sdb"] }
    { JobID := some "j-1" } (boundVolume "vol-1" "i-1" "/dev/sdb") []
    { InstanceID := some "i-1", Device := some "/dev/sdb" }
    (by rfl)
    (Or.inr ⟨freeVolume "vol-1", [], { InstanceID := some "", Device := some "" }, "", rfl, rfl, rfl,
      by decide⟩)
    (by rfl) rfl (by rfl) (by rfl) rfl rfl rfl (by decide)

/-- Counterexample to C9 as stated: on the attach of the free volume `vol-1` to `i-1`, with
every request successful, the provider receives two describe requests, not one. -/
theorem AttachVolume_describes_twice :
    (fakeManager allSucceed).traced.AttachVolume "vol-1" "i-1"
        ([[freeVolume "vol-1"], [boundVolume "vol-1" "i-1" "/dev/sdb"]], []) =
      (Outcome.ret ("/dev/sdb", none), ([[boundVolume "vol-1" "i-1" "/dev/sdb"]], attachLog)) ∧
    countDescribe attachLog = 2 := by
  refine ⟨by rfl, by rfl⟩

/-- C10: whatever the job wait does (`wait` is any behaviour of `WaitJob`: success, failure or
timeout), when the create request succeeded with a job ID, `CreateVolume` returns the first
volume ID of the create reply with a nil error, and when the delete request succeeded with
a job ID, `DeleteVolume` returns `(true, nil)`. -/
theorem wait_outcome_ignored (vm : volumeManager σ)
    (wait : String → Nat → Nat → σ → Option Error × σ)
    (volumeOptions : VolumeOptions) (volumeID created jobC jobD : String) (s s1 t t1 : σ)
    (outC : CreateVolumesOutput) (others : List (Option String)) (outD : DeleteVolumesOutput)
    (hc : vm.cloud.CreateVolumes
      { VolumeName := volumeOptions.VolumeName, Size := volumeOptions.CapacityGB,
        VolumeType := volumeOptions.VolumeType } s = (Reply.ok outC, s1))
    (hjc : outC.JobID = some jobC) (hvc : outC.Volumes = some created :: others)
    (hd : vm.cloud.DeleteVolumes { Volumes := [volumeID] } t = (Reply.ok outD, t1))
    (hjd : outD.JobID = some jobD) :
    (volumeManager.CreateVolume { vm with cloud := { vm.cloud with WaitJob := wait } }
        volumeOptions s).1 = Outcome.ret (created, none) ∧
    (volumeManager.DeleteVolume { vm with cloud := { vm.cloud with WaitJob := wait } }
        volumeID t).1 = Outcome.ret (true, none) := by
  constructor
  · simp [CreateVolume, bind, pure, Go.call, Go.index, Go.deref, hc, hjc, hvc]
  · simp [DeleteVolume, bind, pure, Go.call, Go.deref, hd, hjd]

/-- Witness of C10: the job wait times out, for a create and for a delete. -/
theorem wait_outcome_ignored_witness :
    (volumeManager.CreateVolume
        { fakeManager allSucceed with
          cloud := { (fakeManager allSucceed).cloud with
            WaitJob := fun _ _ _ st => (some ⟨"timeout waiting for job"⟩, st) } }
        { CapacityGB := 10, VolumeType := VolumeTypeHP, VolumeName := "data" } [[]]).1 =
      Outcome.ret ("vol-1", none) ∧
    (volumeManager.DeleteVolume
        { fakeManager allSucceed with
          cloud := { (fakeManager allSucceed).cloud with
            WaitJob := fun _ _ _ st => (some ⟨"timeout waiting for job"⟩, st) } }
        "vol-1" [[freeVolume "vol-1"], []]).1 = Outcome.ret (true, none) :=
  wait_outcome_ignored (fakeManager allSucceed)
    (fun _ _ _ st => (some ⟨"timeout waiting for job"⟩, st))
    { CapacityGB := 10, VolumeType := VolumeTypeHP, VolumeName := "data" } "vol-1" "vol-1" "j-1" "j-1"
    [[]] [] [[freeVolume "vol-1"], []] [[]]
    { JobID := some "j-1", Volumes := [some "vol-1"] } [] { JobID := some "j-1" }
    rfl rfl rfl rfl rfl


/-- `VolumeIsAttached` faults when the first volume of the describe reply has no attachment
record, or one without an instance ID. -/
theorem VolumeIsAttached_null_faults (vm : volumeManager σ) (volumeID instanceID : String)
    (s s1 : σ) (out : DescribeVolumesOutput) (v : Volume) (rest : List Volume)
    (h1 : vm.cloud.DescribeVolumes { Volumes := [volumeID] } s = (Reply.ok out, s1))
    (hv : out.VolumeSet = v :: rest)
    (hnull : v.Instance = none ∨ ∃ inst, v.Instance = some inst ∧ inst.InstanceID = none) :
    vm.VolumeIsAttached volumeID instanceID s = (Outcome.fault Fault.nilDereference, s1) := by
  rcases hnull with hi | ⟨inst, hi, hid⟩
  · simp [VolumeIsAttached, bind, pure, Go.call, Go.index, Go.deref, Go.raise, h1, hv, hi]
  · simp [VolumeIsAttached, bind, pure, Go.call, Go.index, Go.deref, Go.raise, h1, hv, hi, hid]

/-- `DisksAreAttached` faults when the first volume of the describe reply has no attachment
record, or one without an instance ID. -/
theorem DisksAreAttached_null_faults (vm : volumeManager σ) (volumeIDs : List String)
    (instanceID : String) (s s1 : σ) (out : DescribeVolumesOutput) (v : Volume)
    (rest : List Volume)
    (h1 : vm.cloud.DescribeVolumes { Volumes := volumeIDs } s = (Reply.ok out, s1))
    (hv : out.VolumeSet = v :: rest)
    (hnull : v.Instance = none ∨ ∃ inst, v.Instance = some inst ∧ inst.InstanceID = none) :
    vm.DisksAreAttached volumeIDs instanceID s = (Outcome.fault Fault.nilDereference, s1) := by
  rcases hnull with hi | ⟨inst, hi, hid⟩
  · simp [DisksAreAttached, markAttached, bind, pure, Go.call, Go.deref, Go.raise, h1, hv, hi]
  · simp [DisksAreAttached, markAttached, bind, pure, Go.call, Go.deref, Go.raise, h1, hv, hi, hid]

/-- C12 (the code at the failing input): the describe reply lists `vol-1` without an
attachment record, or with an attachment record that has no instance ID. Both
`VolumeIsAttached` and `DisksAreAttached` end in a nil dereference; neither returns
`(false, nil)` or a map. -/
theorem attachment_queries_fault_on_null_attachment :
    (fakeManager allSucceed).VolumeIsAttached "vol-1" "i-1" [[bareVolume "vol-1"]] =
      (Outcome.fault Fault.nilDereference, [[bareVolume "vol-1"]]) ∧
    (fakeManager allSucceed).VolumeIsAttached "vol-1" "i-1" [[blankVolume "vol-1"]] =
      (Outcome.fault Fault.nilDereference, [[blankVolume "vol-1"]]) ∧
    (fakeManager allSucceed).DisksAreAttached ["vol-1"] "i-1" [[bareVolume "vol-1"]] =
      (Outcome.fault Fault.nilDereference, [[bareVolume "vol-1"]]) ∧
    (fakeManager allSucceed).DisksAreAttached ["vol-1"] "i-1" [[blankVolume "vol-1"]] =
      (Outcome.fault Fault.nilDereference, [[blankVolume "vol-1"]]) := by
  refine ⟨by rfl, by rfl, by rfl, by rfl⟩


end manager

/-! ## Attacher and detacher -/

section attacherTheorems

variable {σ Spec : Type}

/-- C5: `Detach` checks `VolumeIsAttached` for the volume ID `path.Base(deviceMountPath)`, which
is the final component `name` of a path `dir/name`. When the check returns no error and
`false`, `Detach` returns `nil` and calls nothing else. When the check returns an error or
`true`, `Detach` calls `DetachVolume` once, for that volume ID and the instance of the node,
and its result (and final state) is that of this call. -/
theorem Detach_cases (detacher : qingcloudVolumeDetacher σ) (h : Helpers Spec)
    (deviceMountPath nodeName : String) (s s1 : σ) (log : List MethodCall)
    (attached : Bool) (err : Option Error)
    (hcheck : detacher.qingVolumes.VolumeIsAttached (pathBase deviceMountPath)
      (h.NodeNameToInstanceID nodeName) s = (Outcome.ret (attached, err), s1)) :
    (∀ dir name : String, name ≠ "" → '/' ∉ name.toList →
      deviceMountPath = dir ++ "/" ++ name → pathBase deviceMountPath = name) ∧
    (err = none ∧ attached = false →
      detacher.traced.Detach h deviceMountPath nodeName (s, log) =
        (Outcome.ret none,
          (s1, log ++ [MethodCall.VolumeIsAttached (pathBase deviceMountPath)
            (h.NodeNameToInstanceID nodeName)]))) ∧
    (err ≠ none ∨ attached = true →
      detacher.traced.Detach h deviceMountPath nodeName (s, log) =
        ((detacher.qingVolumes.DetachVolume (pathBase deviceMountPath)
            (h.NodeNameToInstanceID nodeName) s1).1,
          ((detacher.qingVolumes.DetachVolume (pathBase deviceMountPath)
            (h.NodeNameToInstanceID nodeName) s1).2,
           log ++ [MethodCall.VolumeIsAttached (pathBase deviceMountPath)
                     (h.NodeNameToInstanceID nodeName),
                   MethodCall.DetachVolume (pathBase deviceMountPath)
                     (h.NodeNameToInstanceID nodeName)]))) := by
  refine ⟨?_, ?_, ?_⟩
  · intro dir name hne hslash hp
    rw [hp]
    exact pathBase_final_component dir name hne hslash
  · rintro ⟨he, ha⟩
    simp [qingcloudVolumeDetacher.Detach, qingcloudVolumeDetacher.traced, Volumes.traced,
      Go.logged, bind, pure, hcheck, he, ha]
  · intro hor
    have hcond : ¬ (err = none ∧ attached = false) := by
      rintro ⟨he, ha⟩
      rcases hor with h1 | h1
      · exact h1 he
      · simp [ha] at h1
    cases hdet : detacher.qingVolumes.DetachVolume (pathBase deviceMountPath)
        (h.NodeNameToInstanceID nodeName) s1 with
    | mk r s2 =>
      cases r with
      | ret e =>
        cases e <;>
        simp [qingcloudVolumeDetacher.Detach, qingcloudVolumeDetacher.traced, Volumes.traced,
          Go.logged, bind, pure, hcheck, hcond, hdet]
      | fault f =>
        simp [qingcloudVolumeDetacher.Detach, qingcloudVolumeDetacher.traced, Volumes.traced,
          Go.logged, bind, pure, hcheck, hcond, hdet]


/-- Witness of C5: `detach /mnt/vol-1 node-A` when `vol-1` is not attached to `node-A`. -/
theorem Detach_cases_witness :
    (qingcloudVolumeDetacher.mk
        (stubVolumes ("", none) none (false, none) (GoMap.empty, none))).traced.Detach
        stringHelpers "/mnt/vol-1" "node-A" ((), []) =
      (Outcome.ret none, ((), [] ++ [MethodCall.VolumeIsAttached (pathBase "/mnt/vol-1")
        (stringHelpers.NodeNameToInstanceID "node-A")])) :=
  (Detach_cases
    (qingcloudVolumeDetacher.mk (stubVolumes ("", none) none (false, none) (GoMap.empty, none)))
    stringHelpers "/mnt/vol-1" "node-A" () () [] false none rfl).2.1 ⟨rfl, rfl⟩

/-- C6 (amended): for a spec that resolves to a volume source, when `AttachVolume` fails with
the error `e`: if the message of `e` contains "have been already attached to instance",
`Attach` returns a nil error together with the device path that `AttachVolume` returned; if
it does not contain it, `Attach` returns `e` with an empty device path. -/
theorem Attach_error_cases (attacher : qingcloudVolumeAttacher σ) (h : Helpers Spec)
    (spec : Spec) (nodeName : String) (volumeSource : qingcloudVolumeSource) (readOnly : Bool)
    (s s1 : σ) (devicePath : String) (e : Error)
    (hsrc : h.getVolumeSource spec = Reply.ok (volumeSource, readOnly))
    (hatt : attacher.qcVolumes.AttachVolume volumeSource.VolumeID
      (h.NodeNameToInstanceID nodeName) s = (Outcome.ret (devicePath, some e), s1)) :
    ("have been already attached to instance".toList <:+: e.msg.toList →
      attacher.Attach h spec nodeName s = (Outcome.ret (devicePath, none), s1)) ∧
    (¬ "have been already attached to instance".toList <:+: e.msg.toList →
      attacher.Attach h spec nodeName s = (Outcome.ret ("", some e), s1)) := by
  have key := stringsContains_iff e.msg "have been already attached to instance"
  constructor
  · intro hc
    have := key.mpr hc
    simp [qingcloudVolumeAttacher.Attach, bind, pure, hsrc, hatt, this]
  · intro hc
    have : stringsContains e.msg "have been already attached to instance" = false := by
      cases hb : stringsContains e.msg "have been already attached to instance"
      · rfl
      · exact absurd (key.mp hb) hc
    simp [qingcloudVolumeAttacher.Attach, bind, pure, hsrc, hatt, this]

/-- Witness of C6 (amended): the message the cloud gives for a volume that is attached. -/
theorem Attach_error_cases_witness :
    qingcloudVolumeAttacher.Attach
        ⟨stubVolumes ("", some ⟨"PermissionDenied, resource [vol-1] have been already attached to instance [i-1]"⟩)
          none (false, none) (GoMap.empty, none)⟩
        stringHelpers "vol-1" "i-1" () =
      (Outcome.ret ("", none), ()) :=
  (Attach_error_cases
    ⟨stubVolumes ("", some ⟨"PermissionDenied, resource [vol-1] have been already attached to instance [i-1]"⟩)
      none (false, none) (GoMap.empty, none)⟩
    stringHelpers "vol-1" "i-1" { VolumeID := "vol-1", FSType := "ext4" } false () () ""
    ⟨"PermissionDenied, resource [vol-1] have been already attached to instance [i-1]"⟩
    (by decide) rfl).1
    ⟨"PermissionDenied, resource [vol-1] ".toList, " [i-1]".toList, by decide⟩

/-- Counterexample to C6 as stated: the message of the error contains
"already attached to instance" but not the longer text the code looks for, and `Attach`
returns the error. -/
theorem Attach_shorter_message_is_error :
    "already attached to instance".toList <:+:
        (Error.mk "volume vol-1 is already attached to instance i-1").msg.toList ∧
      qingcloudVolumeAttacher.Attach
          ⟨stubVolumes ("", some ⟨"volume vol-1 is already attached to instance i-1"⟩)
            none (false, none) (GoMap.empty, none)⟩
          stringHelpers "vol-1" "i-1" () =
        (Outcome.ret ("", some ⟨"volume vol-1 is already attached to instance i-1"⟩), ()) := by
  refine ⟨⟨"volume vol-1 is ".toList, " i-1".toList, by decide⟩, by decide⟩


section

variable [DecidableEq Spec]

theorem collectSpecs_volumeIDList (h : Helpers Spec) (specs : List Spec) (t : SpecTables Spec) :
    (collectSpecs h specs t).volumeIDList = t.volumeIDList ++ volumeIDsOf h specs := by
  induction specs generalizing t with
  | nil => simp [collectSpecs, volumeIDsOf]
  | cons spec rest ih =>
    cases hsrc : h.getVolumeSource spec with
    | error e => simp [collectSpecs, volumeIDsOf, hsrc, ih] 
    | ok r =>
      obtain ⟨src, ro⟩ := r
      simp [collectSpecs, volumeIDsOf, hsrc, ih]

theorem collectSpecs_check (h : Helpers Spec) (specs : List Spec) (t : SpecTables Spec)
    (k : Option Spec) :
    (collectSpecs h specs t).volumesAttachedCheck.get? k =
      if specs.any (fun spec => resolves h spec && decide (some spec = k)) = true then some true
      else t.volumesAttachedCheck.get? k := by
  induction specs generalizing t with
  | nil => simp [collectSpecs]
  | cons spec rest ih =>
    cases hsrc : h.getVolumeSource spec with
    | error e => simp [collectSpecs, hsrc, ih, resolves]
    | ok r =>
      obtain ⟨src, ro⟩ := r
      simp only [collectSpecs, hsrc, ih, GoMap.get?_set, List.any_cons, resolves, Bool.true_and]
      by_cases hk : some spec = k
      · simp [hk]
      · simp [hk]

/-- C7 (amended): when the `DisksAreAttached` call returns the error `e`, `VolumesAreAttached`
returns `e` together with a map that holds every input spec that resolves to a volume
source, each mapped to `true`; an input spec that does not resolve is not a key of the map,
and no key maps to `false`. -/
theorem VolumesAreAttached_error (attacher : qingcloudVolumeAttacher σ) (h : Helpers Spec)
    (specs : List Spec) (nodeName : String) (s s1 : σ) (m : GoMap String Bool) (e : Error)
    (hdisks : attacher.qcVolumes.DisksAreAttached (volumeIDsOf h specs)
      (h.NodeNameToInstanceID nodeName) s = (Outcome.ret (m, some e), s1)) :
    ∃ check, attacher.VolumesAreAttached h specs nodeName s = (Outcome.ret (check, some e), s1) ∧
      (∀ spec ∈ specs, resolves h spec = true → check.get? (some spec) = some true) ∧
      (∀ spec ∈ specs, resolves h spec = false → check.get? (some spec) = none) ∧
      (∀ k b, check.get? k = some b → b = true) := by
  have hids := collectSpecs_volumeIDList h specs SpecTables.empty
  simp only [SpecTables.empty, List.nil_append] at hids
  rw [← SpecTables.empty] at hids
  have hget := collectSpecs_check h specs SpecTables.empty
  refine ⟨(collectSpecs h specs SpecTables.empty).volumesAttachedCheck, ?_, ?_, ?_, ?_⟩
  · simp [qingcloudVolumeAttacher.VolumesAreAttached, bind, pure, hids, hdisks]
  · intro spec hmem hres
    have : specs.any (fun sp => resolves h sp && decide (some sp = some spec)) = true := by
      simp only [List.any_eq_true, Bool.and_eq_true, decide_eq_true_eq]
      exact ⟨spec, hmem, hres, rfl⟩
    rw [hget, if_pos this]
  · intro spec _ hres
    have : specs.any (fun sp => resolves h sp && decide (some sp = some spec)) = false := by
      rw [List.any_eq_false]
      intro sp _
      by_cases hsp : sp = spec
      · subst hsp; simp [hres]
      · simp [hsp]
    rw [hget, this]
    simp [SpecTables.empty, GoMap.empty, GoMap.get?]
  · intro k b hb
    rw [hget] at hb
    split at hb
    · simpa using hb.symm
    · simp [SpecTables.empty, GoMap.empty, GoMap.get?] at hb


/-- Witness of C7 (amended): two specs, of which `""` has no volume source; the provider
call times out. -/
theorem VolumesAreAttached_error_witness :
    ∃ check, qingcloudVolumeAttacher.VolumesAreAttached
        ⟨stubVolumes ("", none) none (false, none) (GoMap.empty, some ⟨"request timeout"⟩)⟩
        stringHelpers ["vol-1", ""] "node-A" () =
        (Outcome.ret (check, some ⟨"request timeout"⟩), ()) ∧
      (∀ spec ∈ ["vol-1", ""], resolves stringHelpers spec = true →
        check.get? (some spec) = some true) ∧
      (∀ spec ∈ ["vol-1", ""], resolves stringHelpers spec = false →
        check.get? (some spec) = none) ∧
      (∀ k b, check.get? k = some b → b = true) :=
  VolumesAreAttached_error
    ⟨stubVolumes ("", none) none (false, none) (GoMap.empty, some ⟨"request timeout"⟩)⟩
    stringHelpers ["vol-1", ""] "node-A" () () GoMap.empty ⟨"request timeout"⟩ rfl

/-- Counterexample to C7 as stated: the input spec `""` does not resolve to a volume source;
the provider call fails, and the returned map holds `vol-1` only. -/
theorem VolumesAreAttached_error_drops_spec :
    qingcloudVolumeAttacher.VolumesAreAttached
        ⟨stubVolumes ("", none) none (false, none) (GoMap.empty, some ⟨"request timeout"⟩)⟩
        stringHelpers ["vol-1", ""] "node-A" () =
        (Outcome.ret ([(some "vol-1", true)], some ⟨"request timeout"⟩), ()) ∧
      "" ∈ ["vol-1", ""] ∧
      GoMap.get? ([(some "vol-1", true)] : GoMap (Option String) Bool) (some "") = none := by
  refine ⟨by rfl, by decide, by decide⟩

end

section

variable [DecidableEq Spec]

/-- Every entry of `volumeSpecMap` after the first loop was there before, or holds an input
spec under the volume ID of that spec. -/
theorem collectSpecs_specMap_sound (h : Helpers Spec) (specs : List Spec) (t : SpecTables Spec)
    (id : String) (sp : Spec)
    (hget : (collectSpecs h specs t).volumeSpecMap.get? id = some sp) :
    (sp ∈ specs ∧ ∃ src ro, h.getVolumeSource sp = Reply.ok (src, ro) ∧ src.VolumeID = id) ∨
      t.volumeSpecMap.get? id = some sp := by
  induction specs generalizing t with
  | nil => exact Or.inr (by simpa [collectSpecs] using hget)
  | cons spec rest ih =>
    cases hsrc : h.getVolumeSource spec with
    | error e =>
      simp only [collectSpecs, hsrc] at hget
      rcases ih t hget with ⟨hm, hx⟩ | hx
      · exact Or.inl ⟨List.mem_cons_of_mem _ hm, hx⟩
      · exact Or.inr hx
    | ok r =>
      obtain ⟨src, ro⟩ := r
      simp only [collectSpecs, hsrc] at hget
      rcases ih _ hget with ⟨hm, hx⟩ | hx
      · exact Or.inl ⟨List.mem_cons_of_mem _ hm, hx⟩
      · simp only [GoMap.get?_set] at hx
        by_cases hid : src.VolumeID = id
        · simp only [hid, if_true, Option.some.injEq] at hx
          subst hx
          exact Or.inl ⟨List.mem_cons_self _ _, src, ro, hsrc, hid⟩
        · simp only [hid, if_false] at hx
          exact Or.inr hx

/-- Every requested volume ID has an entry in `volumeSpecMap` after the first loop. -/
theorem collectSpecs_specMap_complete (h : Helpers Spec) (specs : List Spec)
    (t : SpecTables Spec) (id : String)
    (hid : id ∈ volumeIDsOf h specs ∨ ∃ sp, t.volumeSpecMap.get? id = some sp) :
    ∃ sp, (collectSpecs h specs t).volumeSpecMap.get? id = some sp := by
  induction specs generalizing t with
  | nil =>
    rcases hid with hid | hid
    · simp [volumeIDsOf] at hid
    · simpa [collectSpecs] using hid
  | cons spec rest ih =>
    cases hsrc : h.getVolumeSource spec with
    | error e =>
      simp only [collectSpecs, hsrc]
      apply ih
      rcases hid with hid | hid
      · left
        simpa [volumeIDsOf, hsrc] using hid
      · exact Or.inr hid
    | ok r =>
      obtain ⟨src, ro⟩ := r
      simp only [collectSpecs, hsrc]
      apply ih
      by_cases he : src.VolumeID = id
      · right
        exact ⟨spec, by simp [GoMap.get?_set, he]⟩
      · rcases hid with hid | ⟨sp, hsp⟩
        · left
          simp only [volumeIDsOf, List.filterMap_cons, hsrc, List.mem_cons] at hid
          rcases hid with hid | hid
          · exact absurd hid.symm he
          · exact hid
        · right
          exact ⟨sp, by simp [GoMap.get?_set, he, hsp]⟩

/-- The second loop returns without a fault when every ID that is reported as not attached
has a spec in `volumeSpecMap`; a key of the result maps to `false` exactly when it is the
spec of such an ID, and keeps its value otherwise. The state is not touched. -/
theorem clearDetached_run (h : Helpers Spec) (specMap : GoMap String Spec)
    (entries : List (String × Bool)) (check : GoMap (Option Spec) Bool) (s : σ)
    (hknown : ∀ id, (id, false) ∈ entries → ∃ sp, specMap.get? id = some sp) :
    ∃ check1, clearDetached h specMap entries check s = (Outcome.ret check1, s) ∧
      ∀ k, check1.get? k =
        if entries.any (fun e => !e.2 && decide (specMap.get? e.1 = k)) = true then some false
        else check.get? k := by
  induction entries generalizing check with
  | nil => exact ⟨check, rfl, by simp⟩
  | cons e rest ih =>
    obtain ⟨id, attached⟩ := e
    have hrest : ∀ id1, (id1, false) ∈ rest → ∃ sp, specMap.get? id1 = some sp :=
      fun id1 hm => hknown id1 (List.mem_cons_of_mem _ hm)
    cases attached with
    | true =>
      obtain ⟨check1, hrun, hget⟩ := ih check hrest
      refine ⟨check1, ?_, ?_⟩
      · simp [clearDetached, hrun]
      · intro k
        rw [hget k]
        simp only [List.any_cons, Bool.not_true, Bool.false_and, Bool.false_or]
    | false =>
      obtain ⟨sp, hsp⟩ := hknown id (List.mem_cons_self _ _)
      obtain ⟨check1, hrun, hget⟩ := ih (check.set (some sp) false) hrest
      refine ⟨check1, ?_, ?_⟩
      · simp [clearDetached, specNameOf, bind, pure, Go.deref, hsp, hrun]
      · intro k
        rw [hget k, GoMap.get?_set]
        by_cases hk : some sp = k
        · simp [hsp, hk]
        · simp only [List.any_cons, hsp, hk, Bool.not_false, decide_False, Bool.and_false,
            Bool.false_or, if_false]


/-- C11 (amended): when the `DisksAreAttached` call succeeds with a map that reports `false`
for requested volume IDs only, `VolumesAreAttached` makes exactly one `DisksAreAttached`
call, for the volume IDs of the specs, and, for every list of specs that all resolve to a
volume source, every input spec is a key of the returned map; an input spec whose volume ID
is carried by no other spec of the list maps to the boolean that `DisksAreAttached`
reported for that volume ID. -/
theorem VolumesAreAttached_reports (attacher : qingcloudVolumeAttacher σ) (h : Helpers Spec)
    (specs : List Spec) (nodeName : String) (s s1 : σ) (log : List MethodCall)
    (m : GoMap String Bool)
    (hres : ∀ spec ∈ specs, resolves h spec = true)
    (hdisks : attacher.qcVolumes.DisksAreAttached (volumeIDsOf h specs)
      (h.NodeNameToInstanceID nodeName) s = (Outcome.ret (m, none), s1))
    (hnodup : m.keys.Nodup)
    (hasked : ∀ id, m.get? id = some false → id ∈ volumeIDsOf h specs) :
    ∃ check,
      attacher.traced.VolumesAreAttached h specs nodeName (s, log) =
        (Outcome.ret (check, none),
          (s1, log ++ [MethodCall.DisksAreAttached (volumeIDsOf h specs)
            (h.NodeNameToInstanceID nodeName)])) ∧
      (∀ spec ∈ specs, ∃ b, check.get? (some spec) = some b) ∧
      (∀ spec ∈ specs, ∀ src ro, h.getVolumeSource spec = Reply.ok (src, ro) →
        (∀ other ∈ specs, ∀ src1 ro1, h.getVolumeSource other = Reply.ok (src1, ro1) →
          src1.VolumeID = src.VolumeID → other = spec) →
        ∀ b, m.get? src.VolumeID = some b → check.get? (some spec) = some b) := by
  have hids := collectSpecs_volumeIDList h specs SpecTables.empty
  simp only [SpecTables.empty, List.nil_append] at hids
  rw [← SpecTables.empty] at hids
  have hcheck := collectSpecs_check h specs SpecTables.empty
  have hknown : ∀ id, (id, false) ∈ m.entries →
      ∃ sp, (collectSpecs h specs SpecTables.empty).volumeSpecMap.get? id = some sp := by
    intro id hmem
    exact collectSpecs_specMap_complete h specs SpecTables.empty id
      (Or.inl (hasked id (GoMap.get?_of_mem m id false hnodup hmem)))
  obtain ⟨check1, hrun, hget⟩ := clearDetached_run h
    (collectSpecs h specs SpecTables.empty).volumeSpecMap m.entries
    (collectSpecs h specs SpecTables.empty).volumesAttachedCheck
    (s1, log ++ [MethodCall.DisksAreAttached (volumeIDsOf h specs)
      (h.NodeNameToInstanceID nodeName)]) hknown
  have hstart : ∀ spec ∈ specs,
      (collectSpecs h specs SpecTables.empty).volumesAttachedCheck.get? (some spec) = some true := by
    intro spec hmem
    have : specs.any (fun sp => resolves h sp && decide (some sp = some spec)) = true := by
      simp only [List.any_eq_true, Bool.and_eq_true, decide_eq_true_eq]
      exact ⟨spec, hmem, hres spec hmem, rfl⟩
    rw [hcheck, if_pos this]
  refine ⟨check1, ?_, ?_, ?_⟩
  · simp only [GoMap.entries] at hrun
    simp [qingcloudVolumeAttacher.VolumesAreAttached, qingcloudVolumeAttacher.traced,
      Volumes.traced, Go.logged, bind, pure, hids, hdisks, hrun]
  · intro spec hmem
    rw [hget, hstart spec hmem]
    split
    · exact ⟨false, rfl⟩
    · exact ⟨true, rfl⟩
  · intro spec hmem src ro hsrc huniq b hb
    have hmine : (collectSpecs h specs SpecTables.empty).volumeSpecMap.get? src.VolumeID =
        some spec := by
      have hin : src.VolumeID ∈ volumeIDsOf h specs := by
        simp only [volumeIDsOf, List.mem_filterMap]
        exact ⟨spec, hmem, by simp [hsrc]⟩
      obtain ⟨sp, hsp⟩ := collectSpecs_specMap_complete h specs SpecTables.empty src.VolumeID
        (Or.inl hin)
      rcases collectSpecs_specMap_sound h specs SpecTables.empty src.VolumeID sp hsp with
        ⟨hspm, src1, ro1, hsrc1, hid1⟩ | hempty
      · rw [hsp, huniq sp hspm src1 ro1 hsrc1 hid1]
      · simp [SpecTables.empty, GoMap.empty, GoMap.get?] at hempty
    rw [hget, hstart spec hmem]
    cases b with
    | false =>
      have : m.entries.any (fun e => !e.2 &&
          decide ((collectSpecs h specs SpecTables.empty).volumeSpecMap.get? e.1 = some spec)) =
          true := by
        simp only [List.any_eq_true, Bool.and_eq_true, decide_eq_true_eq]
        exact ⟨(src.VolumeID, false), GoMap.mem_of_get? m _ _ hb, rfl, hmine⟩
      rw [if_pos this]
    | true =>
      have : ¬ m.entries.any (fun e => !e.2 &&
          decide ((collectSpecs h specs SpecTables.empty).volumeSpecMap.get? e.1 = some spec)) =
          true := by
        simp only [List.any_eq_true, Bool.and_eq_true, decide_eq_true_eq, not_exists, not_and]
        rintro ⟨id, att⟩ hmem1 hatt hsp
        simp only [Bool.not_eq_true'] at hatt
        simp only at hatt hsp
        subst hatt
        rcases collectSpecs_specMap_sound h specs SpecTables.empty id spec hsp with
          ⟨-, src1, ro1, hsrc1, hid1⟩ | hempty
        · rw [hsrc] at hsrc1
          simp only [Reply.ok.injEq, Prod.mk.injEq] at hsrc1
          rw [← hid1, ← hsrc1.1] at hmem1
          have := GoMap.get?_of_mem m _ _ hnodup hmem1
          rw [hb] at this
          simp at this
        · simp [SpecTables.empty, GoMap.empty, GoMap.get?] at hempty
      rw [if_neg this]


/-- Witness of C11 (amended): two specs with volumes of their own; `vol-1` is free and
`vol-2` is attached to `i-1`. -/
theorem VolumesAreAttached_reports_witness :
    ∃ check,
      (qingcloudVolumeAttacher.mk (fakeManager allSucceed).toVolumes).traced.VolumesAreAttached
          pairHelpers [(1, "vol-1"), (2, "vol-2")] "i-1"
          ([[freeVolume "vol-1", boundVolume "vol-2" "i-1" "/dev/sdb"]], []) =
        (Outcome.ret (check, none),
          ([[freeVolume "vol-1", boundVolume "vol-2" "i-1" "/dev/sdb"]],
            [] ++ [MethodCall.DisksAreAttached
              (volumeIDsOf pairHelpers [(1, "vol-1"), (2, "vol-2")])
              (pairHelpers.NodeNameToInstanceID "i-1")])) ∧
      (∀ spec ∈ [(1, "vol-1"), (2, "vol-2")], ∃ b, check.get? (some spec) = some b) ∧
      (∀ spec ∈ [(1, "vol-1"), (2, "vol-2")], ∀ src ro,
        pairHelpers.getVolumeSource spec = Reply.ok (src, ro) →
        (∀ other ∈ [(1, "vol-1"), (2, "vol-2")], ∀ src1 ro1,
          pairHelpers.getVolumeSource other = Reply.ok (src1, ro1) →
          src1.VolumeID = src.VolumeID → other = spec) →
        ∀ b, GoMap.get? ([("vol-1", false), ("vol-2", true)] : GoMap String Bool) src.VolumeID =
          some b → check.get? (some spec) = some b) :=
  VolumesAreAttached_reports (qingcloudVolumeAttacher.mk (fakeManager allSucceed).toVolumes)
    pairHelpers [(1, "vol-1"), (2, "vol-2")] "i-1"
    [[freeVolume "vol-1", boundVolume "vol-2" "i-1" "/dev/sdb"]]
    [[freeVolume "vol-1", boundVolume "vol-2" "i-1" "/dev/sdb"]] []
    [("vol-1", false), ("vol-2", true)]
    (by decide) (by rfl) (by decide)
    (by
      intro id hid
      by_cases h1 : "vol-1" = id
      · subst h1
        decide
      · by_cases h2 : "vol-2" = id
        · simp [GoMap.get?, h1, h2] at hid
        · simp [GoMap.get?, h1, h2] at hid)

/-- Counterexample to C11 as stated: the distinct specs `(1, vol-1)` and `(2, vol-1)` carry the
same volume, which is attached to nothing. `DisksAreAttached` reports `false` for `vol-1`,
and the returned map holds `true` for the first spec. -/
theorem VolumesAreAttached_shared_volume :
    (qingcloudVolumeAttacher.mk (fakeManager allSucceed).toVolumes).traced.VolumesAreAttached
        pairHelpers [(1, "vol-1"), (2, "vol-1")] "i-1" ([[freeVolume "vol-1"]], []) =
      (Outcome.ret ([(some (1, "vol-1"), true), (some (2, "vol-1"), false)], none),
        ([[freeVolume "vol-1"]], [MethodCall.DisksAreAttached ["vol-1", "vol-1"] "i-1"])) ∧
    (fakeManager allSucceed).toVolumes.DisksAreAttached ["vol-1", "vol-1"] "i-1"
        [[freeVolume "vol-1"]] =
      (Outcome.ret ([("vol-1", false)], none), [[freeVolume "vol-1"]]) ∧
    GoMap.get? ([(some (1, "vol-1"), true), (some (2, "vol-1"), false)] :
      GoMap (Option (Nat × String)) Bool) (some (1, "vol-1")) = some true := by
  refine ⟨by rfl, by rfl, by decide⟩


end

end attacherTheorems

end QingCloud
